import Mathlib

/-!
Diets-tg-Bot: conversation state machine and payment completion handler

A shallow embedding of `internal/bot/telegram.go` (`handleCommand`,
`handleMessage`, `handlePaymentSuccess`), of `internal/bot/handlers.go`
(`HandleStripeWebhook`), of the SQL statements of `internal/db/postgres.go` and of
the records of `internal/models/user.go`.

Conventions of the embedding:

* Go `int` and `int64` values are `Int`; no arithmetic of the handlers can
  overflow, the only bound that matters is the 64-bit range check of
  `strconv.Atoi`, which is explicit in `Atoi`.
* Go maps are association lists read with `mapGet` and written with `mapSet`.
* The collaborators whose answers the handlers cannot compute (infrastructure
  faults of the store, the payment provider, the generative-text service) are
  given by a per-invocation record `Env`; the relational store itself is the
  explicit state `DB`.
* Every call to a collaborator is recorded, in program order, in the list of
  `Effect`s of the `Outcome`. Logging and timestamps are not modelled.
* A failed type assertion (a Go panic) stops the handler: the `Outcome` keeps
  the mutations and effects made so far and has `panicked = true`.
-/

namespace DietBot

/-! ## Go maps -/

/-- Lookup `m[k]` in a map held as an association list. -/
def mapGet {κ ν : Type} [DecidableEq κ] : List (κ × ν) → κ → Option ν
  | [], _ => none
  | (k', v) :: m, k => if k' = k then some v else mapGet m k

/-- Assignment `m[k] = v`: every older binding of `k` is dropped. -/
def mapSet {κ ν : Type} [DecidableEq κ] (m : List (κ × ν)) (k : κ) (v : ν) : List (κ × ν) :=
  (k, v) :: m.filter (fun p => !decide (p.1 = k))

/-! ## strconv.Atoi -/

/-- Value of an ASCII decimal digit (`ch -= '0'; if ch > 9 { syntax error }`). -/
def digitVal (c : Char) : Option Nat :=
  if 48 ≤ c.toNat ∧ c.toNat ≤ 57 then some (c.toNat - 48) else none

/-- The digit loop `n = n*10 + int(ch)`; `none` is the syntax error. Every byte of
a non-ASCII character is above `'9'`, so reading characters and reading bytes
reject the same strings. -/
def parseDigits : List Char → Nat → Option Nat
  | [], n => some n
  | c :: cs, n =>
    match digitVal c with
    | none => none
    | some d => parseDigits cs (n * 10 + d)

/-- Go's `strconv.Atoi` on a 64-bit platform: an optional sign, then at least one
decimal digit and nothing else; `none` stands for a non-nil error (syntax error, or
range error when the value does not fit in `int`). -/
def Atoi (s : String) : Option Int :=
  match s.data with
  | [] => none
  | c :: cs =>
    let neg := decide (c = '-')
    let ds := if c = '-' ∨ c = '+' then cs else c :: cs
    match ds with
    | [] => none
    | _ :: _ =>
      match parseDigits ds 0 with
      | none => none
      | some n =>
        if neg then (if n ≤ 2 ^ 63 then some (-(n : Int)) else none)
        else (if n < 2 ^ 63 then some (n : Int) else none)

/-! ## Records of `internal/models/user.go` -/

/-- A value stored in `TemporaryData map[string]interface{}`: the handlers only
ever store a `string` or an `int`. -/
inductive Value where
  | str (s : String)
  | int (n : Int)
  deriving DecidableEq, Repr

/-- The record `models.UserState`. -/
structure UserState where
  TelegramID : Int
  CurrentState : String
  TemporaryData : List (String × Value)
  StripeSessionID : String
  deriving DecidableEq, Repr

/-- The record `models.User` (timestamps left out). -/
structure User where
  ID : Int
  TelegramID : Int
  ChatID : Int
  Username : String
  Gender : String
  Height : Int
  Weight : Int
  Goal : String
  deriving DecidableEq, Repr

/-- The record `models.Payment` (timestamps left out). -/
structure Payment where
  ID : Int
  UserID : Int
  Amount : Int
  Currency : String
  StripePaymentID : String
  Status : String
  deriving DecidableEq, Repr

/-- The record `models.DietPlan` (timestamp left out). -/
structure DietPlan where
  ID : Int
  UserID : Int
  PaymentID : Int
  PlanText : String
  deriving DecidableEq, Repr

/-! ## Stage names -/

def StateStart : String := "start"
def StateGender : String := "gender"
def StateHeight : String := "height"
def StateWeight : String := "weight"
def StateGoal : String := "goal"
def StateConfirm : String := "confirm"
def StatePayment : String := "payment"
def StateProcessing : String := "processing"
def StateComplete : String := "complete"

/-! ## The relational store of `internal/db/postgres.go` -/

/-- The three tables read and written by the SQL statements. The table
declarations are not part of the sources: the `id` columns filled by
`RETURNING id` are drawn from the counters `nextUserID`, `nextPaymentID`,
`nextPlanID`, and no constraint is assumed beyond the conflict target
`telegram_id` of the upsert. -/
structure DB where
  users : List User
  payments : List Payment
  dietPlans : List DietPlan
  nextUserID : Int
  nextPaymentID : Int
  nextPlanID : Int
  deriving DecidableEq, Repr

/-- The statement of `SaveUser`: insert, or on a `telegram_id` conflict overwrite
gender, height, weight and goal of the stored row; the row id is scanned into
`user.ID`. With `fault` the statement returns an error and changes nothing. -/
def DB.SaveUser (db : DB) (fault : Bool) (user : User) : Option (DB × User) :=
  if fault then none
  else
    match db.users.find? (fun r => decide (r.TelegramID = user.TelegramID)) with
    | some row =>
      some ({ db with
                users := db.users.map (fun r =>
                  if r.TelegramID = user.TelegramID then
                    { r with Gender := user.Gender, Height := user.Height,
                             Weight := user.Weight, Goal := user.Goal }
                  else r) },
            { user with ID := row.ID })
    | none =>
      let stored := { user with ID := db.nextUserID }
      some ({ db with users := db.users ++ [stored], nextUserID := db.nextUserID + 1 }, stored)

/-- The query of `GetUser`: the row with this `telegram_id`; no row, or a fault, is an
error. -/
def DB.GetUser (db : DB) (fault : Bool) (telegramID : Int) : Option User :=
  if fault then none
  else db.users.find? (fun r => decide (r.TelegramID = telegramID))

/-- The statement of `SavePayment`: a plain insert, the new id scanned into
`payment.ID`. -/
def DB.SavePayment (db : DB) (fault : Bool) (payment : Payment) : Option (DB × Payment) :=
  if fault then none
  else
    let stored := { payment with ID := db.nextPaymentID }
    some ({ db with payments := db.payments ++ [stored],
                    nextPaymentID := db.nextPaymentID + 1 }, stored)

/-- The statement of `UpdatePaymentStatus`: set the status of every row with this
`stripe_payment_id`. `Exec` reports no error when no row matches. -/
def DB.UpdatePaymentStatus (db : DB) (fault : Bool) (stripePaymentID status : String) :
    Option DB :=
  if fault then none
  else
    some { db with
             payments := db.payments.map (fun r =>
               if r.StripePaymentID = stripePaymentID then { r with Status := status } else r) }

/-- The query of `GetPaymentByStripeID`: the row with this `stripe_payment_id`; no
row, or a fault, is an error. -/
def DB.GetPaymentByStripeID (db : DB) (fault : Bool) (stripePaymentID : String) :
    Option Payment :=
  if fault then none
  else db.payments.find? (fun r => decide (r.StripePaymentID = stripePaymentID))

/-- The statement of `SaveDietPlan`: a plain insert, the new id scanned into
`plan.ID`. -/
def DB.SaveDietPlan (db : DB) (fault : Bool) (plan : DietPlan) : Option (DB × DietPlan) :=
  if fault then none
  else
    let stored := { plan with ID := db.nextPlanID }
    some ({ db with dietPlans := db.dietPlans ++ [stored],
                    nextPlanID := db.nextPlanID + 1 }, stored)

/-! ## Chat transport -/

/-- The reply markup attached to an outgoing message. -/
inductive Markup where
  | none
  | replyKeyboard (rows : List (List String))
  | removeKeyboard (selective : Bool)
  | inlineKeyboardURL (rows : List (List (String × String)))
  deriving DecidableEq, Repr

/-- An outgoing `tgbotapi.MessageConfig`. -/
structure MessageConfig where
  ChatID : Int
  Text : String
  ReplyMarkup : Markup
  deriving DecidableEq, Repr

/-- Outgoing text without markup: `tgbotapi.NewMessage(chatID, text)`. -/
def NewMessage (chatID : Int) (text : String) : MessageConfig :=
  { ChatID := chatID, Text := text, ReplyMarkup := Markup.none }

/-- An incoming `tgbotapi.Message`, reduced to what the handlers read:
`Chat.ID`, `From.ID`, `From.UserName`, `Text`, and the results of the library
methods `Command()` and `CommandArguments()`. -/
structure Message where
  ChatID : Int
  FromID : Int
  UserName : String
  Text : String
  Command : String
  CommandArguments : String
  deriving DecidableEq, Repr

/-- One call made by a handler to a collaborator. -/
inductive Effect where
  | send (msg : MessageConfig)
  | saveUser (user : User)
  | createCheckoutSession (userID : Int) (successURL cancelURL : String)
  | savePayment (payment : Payment)
  | getUser (telegramID : Int)
  | updatePaymentStatus (stripePaymentID status : String)
  | getPaymentByStripeID (stripePaymentID : String)
  | generateDietPlan (user : User)
  | saveDietPlan (plan : DietPlan)
  | goHandlePaymentSuccess (userID : Int) (paymentIntentID : String)
  deriving DecidableEq, Repr

/-- What the collaborators answer during one handler invocation. A `true` flag is an
error returned by that store call; `checkout` is the `(session id, url)` pair of
`CreateCheckoutSession` and `plan` the text of `GenerateDietPlan`, `none` being
their error. -/
structure Env where
  saveUserFault : Bool
  checkout : Option (String × String)
  savePaymentFault : Bool
  getUserFault : Bool
  updatePaymentStatusFault : Bool
  getPaymentFault : Bool
  plan : Option String
  saveDietPlanFault : Bool
  deriving DecidableEq, Repr

/-- The fields of `TelegramBot` that the handlers read or write: the
conversation state store, the relational store and `bot.Self.UserName`. -/
structure TelegramBot where
  userStates : List (Int × UserState)
  db : DB
  selfUserName : String
  deriving DecidableEq, Repr

/-- Result of one handler invocation. -/
structure Outcome where
  bot : TelegramBot
  effects : List Effect
  panicked : Bool
  deriving DecidableEq, Repr

/-! ## Fixed keyboards and texts of `internal/bot/telegram.go` -/

/-- The two-option gender keyboard. -/
def genderKeyboard : Markup :=
  Markup.replyKeyboard [["Мужской", "Женский"]]

/-- The three-option goal keyboard (two rows). -/
def goalKeyboard : Markup :=
  Markup.replyKeyboard [["Снизить вес", "Поддерживать вес"], ["Набрать вес"]]

/-- The yes/no keyboard of the confirmation step. -/
def confirmKeyboard : Markup :=
  Markup.replyKeyboard [["Да, всё верно", "Нет, изменить"]]

/-- The lookup `validGoals[text]` in the map literal of the Goal branch. -/
def validGoals (text : String) : Bool :=
  decide (text = "Снизить вес") || decide (text = "Поддерживать вес") ||
    decide (text = "Набрать вес")

/-- The checked part of `x.(string)`: `none` is the panic of the assertion. -/
def assertString : Option Value → Option String
  | some (Value.str s) => some s
  | _ => none

/-- The checked part of `x.(int)`: `none` is the panic of the assertion. -/
def assertInt : Option Value → Option Int
  | some (Value.int n) => some n
  | _ => none

/-- The `fmt.Sprintf` call that builds the confirmation summary. -/
def summaryText (gender : String) (height weight : Int) (goal : String) : String :=
  "Давайте проверим введенные данные:\n\nПол: " ++ gender ++ "\nРост: " ++ toString height ++
    " см\nВес: " ++ toString weight ++ " кг\nЦель: " ++ goal ++ "\n\nВсё верно?"

/-- The shortening of the goal label before it is stored in the profile. -/
def goalText (goal : String) : String :=
  if goal = "Снизить вес" then "Снизить"
  else if goal = "Поддерживать вес" then "Поддерживать"
  else if goal = "Набрать вес" then "Набрать"
  else goal

/-- The state written by `/start`, by a cancelled payment and by the default branch:
`&models.UserState{TelegramID, CurrentState, TemporaryData: make(map)}`. -/
def freshState (userID : Int) (stage : String) : UserState :=
  { TelegramID := userID, CurrentState := stage, TemporaryData := [], StripeSessionID := "" }

/-- The greeting sent by `/start`. -/
def startMessage (chatID : Int) : MessageConfig :=
  { ChatID := chatID,
    Text := "👋 Приветствую! Я помогу вам создать персонализированный план питания. Для начала, укажите ваш пол:",
    ReplyMarkup := genderKeyboard }

/-! ## handleCommand -/

/-- The tail of the `start` case, reached when no payment branch returns: replace the
user state by a fresh Gender state and send the greeting. -/
def handleCommandInit (t : TelegramBot) (message : Message) : Outcome :=
  { bot := { t with userStates :=
               mapSet t.userStates message.FromID (freshState message.FromID StateGender) },
    effects := [Effect.send (startMessage message.ChatID)],
    panicked := false }

/-- The method `TelegramBot.handleCommand`. The goroutine started on
`payment_success` is recorded as the effect `goHandlePaymentSuccess`. -/
def handleCommand (t : TelegramBot) (message : Message) : Outcome :=
  let command := message.Command
  let chatID := message.ChatID
  let userID := message.FromID
  if command = "start" then
    if message.CommandArguments = "payment_success" then
      match mapGet t.userStates userID with
      | some state =>
        if state.StripeSessionID ≠ "" then
          { bot := t,
            effects :=
              [Effect.send (NewMessage chatID
                 "Спасибо за оплату! Ваш персонализированный план питания будет готов в ближайшее время."),
               Effect.goHandlePaymentSuccess userID state.StripeSessionID],
            panicked := false }
        else handleCommandInit t message
      | none => handleCommandInit t message
    else if message.CommandArguments = "payment_cancel" then
      { bot := { t with userStates := mapSet t.userStates userID (freshState userID StateStart) },
        effects :=
          [Effect.send (NewMessage chatID
             "Оплата была отменена. Вы можете попробовать снова, используя /start.")],
        panicked := false }
    else handleCommandInit t message
  else if command = "help" then
    { bot := t,
      effects :=
        [Effect.send (NewMessage chatID
           "Я бот для создания персонализированных планов питания. Используйте /start, чтобы начать процесс.")],
      panicked := false }
  else
    { bot := t,
      effects :=
        [Effect.send (NewMessage chatID
           "Неизвестная команда. Используйте /start для начала работы.")],
      panicked := false }

/-! ## handleMessage -/

/-- Write `state` back under `userID`: the handlers mutate the `*UserState` held by
the map. -/
def putState (t : TelegramBot) (userID : Int) (state : UserState) : TelegramBot :=
  { t with userStates := mapSet t.userStates userID state }

/-- The `StateConfirm` case after the text was recognised as the yes label: read the
scratch, upsert the profile, open the checkout session, record the payment. -/
def handleConfirmYes (env : Env) (t : TelegramBot) (message : Message) (state : UserState) :
    Outcome :=
  let chatID := message.ChatID
  let userID := message.FromID
  match assertString (mapGet state.TemporaryData "gender") with
  | none => { bot := t, effects := [], panicked := true }
  | some gender =>
  match assertInt (mapGet state.TemporaryData "height") with
  | none => { bot := t, effects := [], panicked := true }
  | some height =>
  match assertInt (mapGet state.TemporaryData "weight") with
  | none => { bot := t, effects := [], panicked := true }
  | some weight =>
  match assertString (mapGet state.TemporaryData "goal") with
  | none => { bot := t, effects := [], panicked := true }
  | some goal =>
    let user : User :=
      { ID := 0, TelegramID := userID, ChatID := chatID, Username := message.UserName,
        Gender := gender, Height := height, Weight := weight, Goal := goalText goal }
    match t.db.SaveUser env.saveUserFault user with
    | none =>
      { bot := t,
        effects :=
          [Effect.saveUser user,
           Effect.send (NewMessage chatID
             "Извините, произошла ошибка при сохранении данных. Пожалуйста, попробуйте позже.")],
        panicked := false }
    | some (db1, user1) =>
      let state1 := { state with CurrentState := StatePayment }
      let successURL := "https://t.me/" ++ t.selfUserName ++ "?start=payment_success"
      let cancelURL := "https://t.me/" ++ t.selfUserName ++ "?start=payment_cancel"
      let sent : List Effect :=
        [Effect.saveUser user,
         Effect.send
           { ChatID := chatID,
             Text := "Спасибо! Ваши данные сохранены. Для получения персонализированного плана питания, требуется оплата в размере 1000 руб.",
             ReplyMarkup := Markup.removeKeyboard true },
         Effect.createCheckoutSession userID successURL cancelURL]
      match env.checkout with
      | none =>
        { bot := putState { t with db := db1 } userID state1,
          effects := sent ++
            [Effect.send (NewMessage chatID
               "Извините, произошла ошибка при создании платежной сессии. Пожалуйста, попробуйте позже.")],
          panicked := false }
      | some (sessionID, checkoutURL) =>
        let state2 := { state1 with StripeSessionID := sessionID }
        let payment : Payment :=
          { ID := 0, UserID := user1.ID, Amount := 1000, Currency := "rub",
            StripePaymentID := sessionID, Status := "pending" }
        let db2 :=
          match db1.SavePayment env.savePaymentFault payment with
          | none => db1
          | some (db, _) => db
        { bot := putState { t with db := db2 } userID state2,
          effects := sent ++
            [Effect.savePayment payment,
             Effect.send
               { ChatID := chatID,
                 Text := "Нажмите на кнопку ниже, чтобы перейти к оплате:",
                 ReplyMarkup := Markup.inlineKeyboardURL [[("Оплатить", checkoutURL)]] }],
          panicked := false }

/-- The method `TelegramBot.handleMessage`: the `switch state.CurrentState` with its
cases in source order. -/
def handleMessage (env : Env) (t : TelegramBot) (message : Message) : Outcome :=
  let chatID := message.ChatID
  let userID := message.FromID
  let text := message.Text
  match mapGet t.userStates userID with
  | none =>
    { bot := t,
      effects :=
        [Effect.send (NewMessage chatID
           "Пожалуйста, используйте /start для начала работы с ботом.")],
      panicked := false }
  | some state =>
    if state.CurrentState = StateGender then
      if text ≠ "Мужской" ∧ text ≠ "Женский" then
        { bot := t,
          effects :=
            [Effect.send
               { ChatID := chatID, Text := "Пожалуйста, выберите пол с помощью кнопок ниже.",
                 ReplyMarkup := genderKeyboard }],
          panicked := false }
      else
        { bot := putState t userID
            { state with
                TemporaryData := mapSet state.TemporaryData "gender" (Value.str text),
                CurrentState := StateHeight },
          effects :=
            [Effect.send
               { ChatID := chatID,
                 Text := "Спасибо! Теперь укажите ваш рост в сантиметрах (например, 175):",
                 ReplyMarkup := Markup.removeKeyboard true }],
          panicked := false }
    else if state.CurrentState = StateHeight then
      match Atoi text with
      | none =>
        { bot := t,
          effects :=
            [Effect.send (NewMessage chatID
               "Пожалуйста, введите корректный рост в сантиметрах (например, 175):")],
          panicked := false }
      | some height =>
        if height < 50 ∨ height > 250 then
          { bot := t,
            effects :=
              [Effect.send (NewMessage chatID
                 "Пожалуйста, введите корректный рост в сантиметрах (например, 175):")],
            panicked := false }
        else
          { bot := putState t userID
              { state with
                  TemporaryData := mapSet state.TemporaryData "height" (Value.int height),
                  CurrentState := StateWeight },
            effects :=
              [Effect.send (NewMessage chatID
                 "Спасибо! Теперь укажите ваш вес в килограммах (например, 70):")],
            panicked := false }
    else if state.CurrentState = StateWeight then
      match Atoi text with
      | none =>
        { bot := t,
          effects :=
            [Effect.send (NewMessage chatID
               "Пожалуйста, введите корректный вес в килограммах (например, 70):")],
          panicked := false }
      | some weight =>
        if weight < 30 ∨ weight > 300 then
          { bot := t,
            effects :=
              [Effect.send (NewMessage chatID
                 "Пожалуйста, введите корректный вес в килограммах (например, 70):")],
            panicked := false }
        else
          { bot := putState t userID
              { state with
                  TemporaryData := mapSet state.TemporaryData "weight" (Value.int weight),
                  CurrentState := StateGoal },
            effects :=
              [Effect.send
                 { ChatID := chatID, Text := "Спасибо! Какая у вас цель?",
                   ReplyMarkup := goalKeyboard }],
            panicked := false }
    else if state.CurrentState = StateGoal then
      if validGoals text = false then
        { bot := t,
          effects :=
            [Effect.send
               { ChatID := chatID, Text := "Пожалуйста, выберите цель с помощью кнопок ниже.",
                 ReplyMarkup := goalKeyboard }],
          panicked := false }
      else
        let state1 : UserState :=
          { state with
              TemporaryData := mapSet state.TemporaryData "goal" (Value.str text),
              CurrentState := StateConfirm }
        let t1 := putState t userID state1
        match assertString (mapGet state1.TemporaryData "gender") with
        | none => { bot := t1, effects := [], panicked := true }
        | some gender =>
        match assertInt (mapGet state1.TemporaryData "height") with
        | none => { bot := t1, effects := [], panicked := true }
        | some height =>
        match assertInt (mapGet state1.TemporaryData "weight") with
        | none => { bot := t1, effects := [], panicked := true }
        | some weight =>
        match assertString (mapGet state1.TemporaryData "goal") with
        | none => { bot := t1, effects := [], panicked := true }
        | some goal =>
          { bot := t1,
            effects :=
              [Effect.send
                 { ChatID := chatID, Text := summaryText gender height weight goal,
                   ReplyMarkup := confirmKeyboard }],
            panicked := false }
    else if state.CurrentState = StateConfirm then
      if text = "Нет, изменить" then
        { bot := putState t userID
            { state with CurrentState := StateGender, TemporaryData := [] },
          effects :=
            [Effect.send
               { ChatID := chatID, Text := "Давайте начнем заново. Выберите ваш пол:",
                 ReplyMarkup := genderKeyboard }],
          panicked := false }
      else if text ≠ "Да, всё верно" then
        { bot := t,
          effects :=
            [Effect.send (NewMessage chatID "Пожалуйста, выберите один из вариантов ответа.")],
          panicked := false }
      else handleConfirmYes env t message state
    else
      { bot := putState t userID (freshState userID StateStart),
        effects :=
          [Effect.send (NewMessage chatID
             "Извините, произошла ошибка. Пожалуйста, используйте /start для начала заново.")],
        panicked := false }

/-! ## handlePaymentSuccess -/

/-- The method `TelegramBot.handlePaymentSuccess`. -/
def handlePaymentSuccess (env : Env) (t : TelegramBot) (userID : Int)
    (paymentIntentID : String) : Outcome :=
  match t.db.GetUser env.getUserFault userID with
  | none => { bot := t, effects := [Effect.getUser userID], panicked := false }
  | some user =>
    match t.db.UpdatePaymentStatus env.updatePaymentStatusFault paymentIntentID "completed" with
    | none =>
      { bot := t,
        effects := [Effect.getUser userID,
                    Effect.updatePaymentStatus paymentIntentID "completed"],
        panicked := false }
    | some db1 =>
      let called : List Effect :=
        [Effect.getUser userID, Effect.updatePaymentStatus paymentIntentID "completed",
         Effect.getPaymentByStripeID paymentIntentID]
      match db1.GetPaymentByStripeID env.getPaymentFault paymentIntentID with
      | none => { bot := { t with db := db1 }, effects := called, panicked := false }
      | some payment =>
        match env.plan with
        | none =>
          { bot := { t with db := db1 },
            effects := called ++
              [Effect.generateDietPlan user,
               Effect.send (NewMessage user.ChatID
                 "К сожалению, произошла ошибка при создании плана питания. Пожалуйста, свяжитесь с поддержкой.")],
            panicked := false }
        | some planText =>
          let dietPlan : DietPlan :=
            { ID := 0, UserID := user.ID, PaymentID := payment.ID, PlanText := planText }
          let db2 :=
            match db1.SaveDietPlan env.saveDietPlanFault dietPlan with
            | none => db1
            | some (db, _) => db
          let userStates :=
            match mapGet t.userStates userID with
            | some state => mapSet t.userStates userID { state with CurrentState := StateComplete }
            | none => t.userStates
          { bot := { t with db := db2, userStates := userStates },
            effects := called ++
              [Effect.generateDietPlan user, Effect.saveDietPlan dietPlan,
               Effect.send (NewMessage user.ChatID
                 ("🎉 Ваш персонализированный план питания готов!\n\n" ++ planText))],
            panicked := false }

/-! ## Sequential runs -/

/-- One delivery to the bot, processed to completion before the next one. -/
inductive Update where
  | command (message : Message)
  | text (message : Message)
  | paymentSuccess (userID : Int) (paymentIntentID : String)
  deriving DecidableEq, Repr

/-- Dispatch of one update as in `handleUpdates`: commands to `handleCommand`, other
messages to `handleMessage`; a completion trigger runs `handlePaymentSuccess`. -/
def step (env : Env) (t : TelegramBot) : Update → Outcome
  | Update.command message => handleCommand t message
  | Update.text message => handleMessage env t message
  | Update.paymentSuccess userID ref => handlePaymentSuccess env t userID ref

/-- Run the updates one after the other, each with its own collaborator answers;
the effects are concatenated in order. -/
def run : TelegramBot → List (Env × Update) → TelegramBot × List Effect
  | t, [] => (t, [])
  | t, (env, u) :: rest =>
    let o := step env t u
    let r := run o.bot rest
    (r.1, o.effects ++ r.2)

/-! ## The payment webhook of `internal/bot/handlers.go` -/

/-- The field of `stripe.PaymentIntent` that the webhook reads. -/
structure PaymentIntent where
  ID : String
  deriving DecidableEq, Repr

/-- The fields of `stripe.CheckoutSession` that the webhook reads; `PaymentIntent` is
`none` for a nil pointer. -/
structure CheckoutSession where
  ID : String
  ClientReferenceID : String
  PaymentIntent : Option PaymentIntent
  deriving DecidableEq, Repr

/-- The fields `Type` and `Data.Raw` of `stripe.Event`. -/
structure Event where
  Type_ : String
  Raw : String
  deriving DecidableEq, Repr

/-- An incoming `http.Request`, reduced to what the webhook reads: the method, the
result of `io.ReadAll(r.Body)` (`none` is its error) and the header
`Stripe-Signature` (empty when absent). -/
structure Request where
  Method : String
  Body : Option String
  StripeSignature : String
  deriving DecidableEq, Repr

/-- What the payment library answers to the webhook: the configured secret
(`GetWebhookSecret`), `webhook.ConstructEvent` on payload, signature and secret, and
`json.Unmarshal` of the raw event data into a session or a payment intent; `none` is
their error. -/
structure StripeClient where
  webhookSecret : String
  ConstructEvent : String → String → String → Option Event
  unmarshalSession : String → Option CheckoutSession
  unmarshalIntent : String → Option PaymentIntent

/-- The method `StripeClient.VerifyWebhookSignature` of `internal/payment/stripe.go`. -/
def StripeClient.VerifyWebhookSignature (s : StripeClient) (payload sig webhookSecret : String) :
    Option Event :=
  if webhookSecret = "" then none
  else s.ConstructEvent payload sig webhookSecret

/-- Go's `strconv.ParseInt(s, 10, 64)`: the grammar and the range of `Atoi` on a
64-bit platform. -/
def ParseInt (s : String) : Option Int :=
  Atoi s

/-- What the webhook writes to the `http.ResponseWriter`, and the goroutines it
starts. -/
structure Response where
  status : Nat
  body : String
  effects : List Effect
  deriving DecidableEq, Repr

/-- The method `TelegramBot.HandleStripeWebhook`. `http.Error` writes the text and a
newline; the goroutine on a completed checkout is recorded as the effect
`goHandlePaymentSuccess`; the other two event kinds are only logged. -/
def HandleStripeWebhook (stripeClient : StripeClient) (r : Request) : Response :=
  if r.Method ≠ "POST" then
    { status := 405, body := "Method not allowed\n", effects := [] }
  else
    match r.Body with
    | none => { status := 400, body := "Failed to read request body\n", effects := [] }
    | some body =>
      let webhookSecret := stripeClient.webhookSecret
      if webhookSecret = "" then
        { status := 500, body := "Webhook not configured\n", effects := [] }
      else
        let signature := r.StripeSignature
        if signature = "" then
          { status := 400, body := "Missing signature\n", effects := [] }
        else
          match stripeClient.VerifyWebhookSignature body signature webhookSecret with
          | none => { status := 400, body := "Invalid signature\n", effects := [] }
          | some event =>
            if event.Type_ = "checkout.session.completed" then
              match stripeClient.unmarshalSession event.Raw with
              | none =>
                { status := 400, body := "Failed to parse event data\n", effects := [] }
              | some session =>
                if session.ClientReferenceID = "" then
                  { status := 400, body := "Missing client reference ID\n", effects := [] }
                else
                  match ParseInt session.ClientReferenceID with
                  | none =>
                    { status := 400, body := "Invalid client reference ID\n", effects := [] }
                  | some userID =>
                    match session.PaymentIntent with
                    | none =>
                      { status := 400, body := "Payment intent is nil\n", effects := [] }
                    | some intent =>
                      { status := 200, body := "Webhook received",
                        effects := [Effect.goHandlePaymentSuccess userID intent.ID] }
            else
              { status := 200, body := "Webhook received", effects := [] }

/-! ## Well-formed scratch data -/

/-- The scratch holds one of the two gender labels under "gender". -/
def HasGender (d : List (String × Value)) : Prop :=
  ∃ g, mapGet d "gender" = some (Value.str g) ∧ (g = "Мужской" ∨ g = "Женский")

/-- The scratch holds an integer of `[50, 250]` under "height". -/
def HasHeight (d : List (String × Value)) : Prop :=
  ∃ h, mapGet d "height" = some (Value.int h) ∧ 50 ≤ h ∧ h ≤ 250

/-- The scratch holds an integer of `[30, 300]` under "weight". -/
def HasWeight (d : List (String × Value)) : Prop :=
  ∃ w, mapGet d "weight" = some (Value.int w) ∧ 30 ≤ w ∧ w ≤ 300

/-- The scratch holds one of the three goal labels under "goal". -/
def HasGoal (d : List (String × Value)) : Prop :=
  ∃ g, mapGet d "goal" = some (Value.str g) ∧
    (g = "Снизить вес" ∨ g = "Поддерживать вес" ∨ g = "Набрать вес")

/-- The scratch of a conversation state holds the answers of the stages already
passed. -/
def WellFormed (s : UserState) : Prop :=
  (s.CurrentState = StateHeight → HasGender s.TemporaryData) ∧
  (s.CurrentState = StateWeight → HasGender s.TemporaryData ∧ HasHeight s.TemporaryData) ∧
  (s.CurrentState = StateGoal →
    HasGender s.TemporaryData ∧ HasHeight s.TemporaryData ∧ HasWeight s.TemporaryData) ∧
  (s.CurrentState = StateConfirm →
    HasGender s.TemporaryData ∧ HasHeight s.TemporaryData ∧ HasWeight s.TemporaryData ∧
      HasGoal s.TemporaryData)

/-- The conversation state of user `u`, if the bot holds one, is well formed. -/
def ScratchOK (t : TelegramBot) (u : Int) : Prop :=
  ∀ s, mapGet t.userStates u = some s → WellFormed s

/-! ## Observations on effect lists -/

/-- Recognises a call of `SaveUser`. -/
def Effect.isSaveUser : Effect → Bool
  | Effect.saveUser _ => true
  | _ => false

/-- Recognises a call of `SavePayment`. -/
def Effect.isSavePayment : Effect → Bool
  | Effect.savePayment _ => true
  | _ => false

/-- Recognises a call of `GenerateDietPlan`. -/
def Effect.isGenerateDietPlan : Effect → Bool
  | Effect.generateDietPlan _ => true
  | _ => false

/-- Recognises a call of `SaveDietPlan`. -/
def Effect.isSaveDietPlan : Effect → Bool
  | Effect.saveDietPlan _ => true
  | _ => false

/-- The command message `/start` without arguments. -/
def startCommand (chatID userID : Int) (userName : String) : Message :=
  { ChatID := chatID, FromID := userID, UserName := userName, Text := "/start",
    Command := "start", CommandArguments := "" }

/-- A message that is not a command: `Command()` and `CommandArguments()` are empty. -/
def textMessage (chatID userID : Int) (userName text : String) : Message :=
  { ChatID := chatID, FromID := userID, UserName := userName, Text := text,
    Command := "", CommandArguments := "" }

/-! ## Sample inputs -/

/-- An empty store. -/
def sampleDB : DB :=
  { users := [], payments := [], dietPlans := [],
    nextUserID := 1, nextPaymentID := 1, nextPlanID := 1 }

/-- Collaborators that all succeed. -/
def sampleEnv : Env :=
  { saveUserFault := false,
    checkout := some ("cs_test_1", "https://checkout.stripe.com/pay/cs_test_1"),
    savePaymentFault := false, getUserFault := false, updatePaymentStatusFault := false,
    getPaymentFault := false, plan := some "1800 kcal", saveDietPlanFault := false }

/-- A bot whose only conversation is the one of user 7. -/
def sampleBot (state : UserState) : TelegramBot :=
  { userStates := [(7, state)], db := sampleDB, selfUserName := "diet_bot" }

/-- A plain text message of user 7 in chat 70. -/
def sampleText (text : String) : Message :=
  { ChatID := 70, FromID := 7, UserName := "ann", Text := text,
    Command := "", CommandArguments := "" }

/-- The scratch of user 7 after the four questions were answered. -/
def sampleScratch : List (String × Value) :=
  [("goal", Value.str "Снизить вес"), ("weight", Value.int 70), ("height", Value.int 175),
   ("gender", Value.str "Женский")]

/-- A store with the profile of user 7 and one pending payment under "cs_test_1". -/
def pendingDB : DB :=
  { users := [⟨1, 7, 70, "ann", "Женский", 175, 70, "Снизить"⟩],
    payments := [⟨1, 1, 1000, "rub", "cs_test_1", "pending"⟩],
    dietPlans := [], nextUserID := 2, nextPaymentID := 2, nextPlanID := 1 }

/-- User 7 waiting in stage Payment over `pendingDB`. -/
def pendingBot : TelegramBot :=
  { userStates := [(7, ⟨7, StatePayment, sampleScratch, "cs_test_1"⟩)], db := pendingDB,
    selfUserName := "diet_bot" }

/-- A bot without any conversation, over the empty store. -/
def emptyBot : TelegramBot :=
  { userStates := [], db := sampleDB, selfUserName := "diet_bot" }

/-- A payment library that accepts the signature "t=1,v1=good" under the secret
"whsec_test" and then reports a completed checkout whose raw data is the payload:
the payload "session" decodes to session "cs_test_1" of client 7 with payment intent
"pi_test_1", the payload "session-without-reference" to the same session without
client reference. -/
def sampleStripe : StripeClient :=
  { webhookSecret := "whsec_test",
    ConstructEvent := fun payload sig _ =>
      if sig = "t=1,v1=good" then some ⟨"checkout.session.completed", payload⟩ else none,
    unmarshalSession := fun raw =>
      if raw = "session" then some ⟨"cs_test_1", "7", some ⟨"pi_test_1"⟩⟩
      else if raw = "session-without-reference" then some ⟨"cs_test_1", "", some ⟨"pi_test_1"⟩⟩
      else none,
    unmarshalIntent := fun _ => none }

/-! ## Lemmas on maps -/

theorem mapGet_mapSet_self {κ ν : Type} [DecidableEq κ] (m : List (κ × ν)) (k : κ) (v : ν) :
    mapGet (mapSet m k v) k = some v := by
  simp [mapSet, mapGet]

theorem mapGet_filter_ne {κ ν : Type} [DecidableEq κ] (m : List (κ × ν)) (k k' : κ)
    (h : k' ≠ k) :
    mapGet (m.filter (fun p => !decide (p.1 = k))) k' = mapGet m k' := by
  induction m with
  | nil => rfl
  | cons p m ih =>
    obtain ⟨a, b⟩ := p
    by_cases hak : a = k
    · subst hak
      have hne : ¬ a = k' := fun e => h e.symm
      simp [List.filter, mapGet, hne, ih]
    · by_cases hak' : a = k'
      · subst hak'
        simp [List.filter, mapGet, hak]
      · simp [List.filter, mapGet, hak, hak', ih]

theorem mapGet_mapSet_ne {κ ν : Type} [DecidableEq κ] (m : List (κ × ν)) (k k' : κ) (v : ν)
    (h : k' ≠ k) :
    mapGet (mapSet m k v) k' = mapGet m k' := by
  have hne : ¬ k = k' := fun e => h e.symm
  simp only [mapSet, mapGet, hne, if_false]
  exact mapGet_filter_ne m k k' h

/-! ## The validating stages -/

/-- Claim C1. In stage Height the state of the sender advances to Weight, with
`scratch["height"]` the parsed value and every other scratch entry and the session
reference as before, exactly when `strconv.Atoi` accepts the text with a value in
`[50, 250]`; on every other text the bot is left as it was and the one fixed
re-prompt is sent. -/
theorem height_stage_advances_iff_valid (env : Env) (t : TelegramBot) (message : Message)
    (state : UserState)
    (hget : mapGet t.userStates message.FromID = some state)
    (hstage : state.CurrentState = StateHeight) :
    ((∃ s', mapGet (handleMessage env t message).bot.userStates message.FromID = some s' ∧
        s'.CurrentState = StateWeight ∧
        (∃ h, Atoi message.Text = some h ∧
          mapGet s'.TemporaryData "height" = some (Value.int h)) ∧
        (∀ k, k ≠ "height" → mapGet s'.TemporaryData k = mapGet state.TemporaryData k) ∧
        s'.StripeSessionID = state.StripeSessionID) ↔
      ∃ h, Atoi message.Text = some h ∧ 50 ≤ h ∧ h ≤ 250) ∧
    (¬ (∃ h, Atoi message.Text = some h ∧ 50 ≤ h ∧ h ≤ 250) →
      (handleMessage env t message).bot = t ∧
      (handleMessage env t message).effects =
        [Effect.send (NewMessage message.ChatID
          "Пожалуйста, введите корректный рост в сантиметрах (например, 175):")] ∧
      (handleMessage env t message).panicked = false) := by
  have hne : StateHeight ≠ StateGender := by decide
  have hne2 : StateHeight ≠ StateWeight := by decide
  unfold handleMessage
  simp only [hget, hstage, hne, if_false, if_true]
  cases hA : Atoi message.Text with
  | none =>
    simp [hget, hstage, hne2]
  | some h =>
    by_cases hr : h < 50 ∨ h > 250
    · simp [hr, hget, hstage, hne2]
      intro h1; omega
    · have hr2 : 50 ≤ h ∧ h ≤ 250 := by omega
      simp [hr, hr2, putState, mapGet_mapSet_self]
      intro k hk
      exact mapGet_mapSet_ne _ _ _ _ hk

/-- Witness for C1: user 7 in stage Height sends "175" and reaches Weight. -/
theorem height_stage_witness :
    mapGet (sampleBot ⟨7, StateHeight, [("gender", Value.str "Женский")], ""⟩).userStates 7 =
        some ⟨7, StateHeight, [("gender", Value.str "Женский")], ""⟩ ∧
      ∃ s', mapGet (handleMessage sampleEnv
              (sampleBot ⟨7, StateHeight, [("gender", Value.str "Женский")], ""⟩)
              (sampleText "175")).bot.userStates 7 = some s' ∧
        s'.CurrentState = StateWeight ∧
        (∃ h, Atoi "175" = some h ∧ mapGet s'.TemporaryData "height" = some (Value.int h)) ∧
        (∀ k, k ≠ "height" →
          mapGet s'.TemporaryData k = mapGet [("gender", Value.str "Женский")] k) ∧
        s'.StripeSessionID = "" :=
  ⟨by decide,
   (height_stage_advances_iff_valid sampleEnv
      (sampleBot ⟨7, StateHeight, [("gender", Value.str "Женский")], ""⟩) (sampleText "175")
      ⟨7, StateHeight, [("gender", Value.str "Женский")], ""⟩ (by decide) (by decide)).1.2
      ⟨175, by decide, by decide, by decide⟩⟩

/-- Claim C2. In stage Weight the state of the sender advances to Goal, with
`scratch["weight"]` the parsed value and every other scratch entry as before,
exactly when `strconv.Atoi` accepts the text with a value in `[30, 300]`; on every
other text the bot is left as it was and the one fixed re-prompt is sent. -/
theorem weight_stage_advances_iff_valid (env : Env) (t : TelegramBot) (message : Message)
    (state : UserState)
    (hget : mapGet t.userStates message.FromID = some state)
    (hstage : state.CurrentState = StateWeight) :
    ((∃ s', mapGet (handleMessage env t message).bot.userStates message.FromID = some s' ∧
        s'.CurrentState = StateGoal ∧
        (∃ w, Atoi message.Text = some w ∧
          mapGet s'.TemporaryData "weight" = some (Value.int w)) ∧
        (∀ k, k ≠ "weight" → mapGet s'.TemporaryData k = mapGet state.TemporaryData k)) ↔
      ∃ w, Atoi message.Text = some w ∧ 30 ≤ w ∧ w ≤ 300) ∧
    (¬ (∃ w, Atoi message.Text = some w ∧ 30 ≤ w ∧ w ≤ 300) →
      (handleMessage env t message).bot = t ∧
      (handleMessage env t message).effects =
        [Effect.send (NewMessage message.ChatID
          "Пожалуйста, введите корректный вес в килограммах (например, 70):")] ∧
      (handleMessage env t message).panicked = false) := by
  have hne : StateWeight ≠ StateGender := by decide
  have hne1 : StateWeight ≠ StateHeight := by decide
  have hne2 : StateWeight ≠ StateGoal := by decide
  unfold handleMessage
  simp only [hget, hstage, hne, hne1, if_false, if_true]
  cases hA : Atoi message.Text with
  | none =>
    simp [hget, hstage, hne2]
  | some w =>
    by_cases hr : w < 30 ∨ w > 300
    · simp [hr, hget, hstage, hne2]
      intro h1; omega
    · have hr2 : 30 ≤ w ∧ w ≤ 300 := by omega
      simp [hr, hr2, putState, mapGet_mapSet_self]
      intro k hk
      exact mapGet_mapSet_ne _ _ _ _ hk

/-- Witness for C2: user 7 in stage Weight sends "70" and reaches Goal. -/
theorem weight_stage_witness :
    mapGet (sampleBot ⟨7, StateWeight, [("height", Value.int 175)], ""⟩).userStates 7 =
        some ⟨7, StateWeight, [("height", Value.int 175)], ""⟩ ∧
      ∃ s', mapGet (handleMessage sampleEnv
              (sampleBot ⟨7, StateWeight, [("height", Value.int 175)], ""⟩)
              (sampleText "70")).bot.userStates 7 = some s' ∧
        s'.CurrentState = StateGoal ∧
        (∃ w, Atoi "70" = some w ∧ mapGet s'.TemporaryData "weight" = some (Value.int w)) ∧
        (∀ k, k ≠ "weight" →
          mapGet s'.TemporaryData k = mapGet [("height", Value.int 175)] k) :=
  ⟨by decide,
   (weight_stage_advances_iff_valid sampleEnv
      (sampleBot ⟨7, StateWeight, [("height", Value.int 175)], ""⟩) (sampleText "70")
      ⟨7, StateWeight, [("height", Value.int 175)], ""⟩ (by decide) (by decide)).1.2
      ⟨70, by decide, by decide, by decide⟩⟩

/-! ## Lemmas on the Goal branch -/

theorem validGoals_iff (text : String) :
    validGoals text = true ↔
      (text = "Снизить вес" ∨ text = "Поддерживать вес" ∨ text = "Набрать вес") := by
  simp [validGoals, or_assoc]

/-- Whatever the scratch holds, an accepted goal label is stored and the stage set to
Confirm before the type assertions run. -/
theorem handleMessage_goal_bot (env : Env) (t : TelegramBot) (message : Message)
    (state : UserState)
    (hget : mapGet t.userStates message.FromID = some state)
    (hstage : state.CurrentState = StateGoal)
    (hvalid : validGoals message.Text = true) :
    (handleMessage env t message).bot =
      putState t message.FromID
        { state with
            TemporaryData := mapSet state.TemporaryData "goal" (Value.str message.Text),
            CurrentState := StateConfirm } := by
  have h1 : StateGoal ≠ StateGender := by decide
  have h2 : StateGoal ≠ StateHeight := by decide
  have h3 : StateGoal ≠ StateWeight := by decide
  unfold handleMessage
  simp only [hget, hstage, h1, h2, h3, hvalid, if_false, if_true]
  split
  · simp at *
  · repeat' split
    all_goals rfl

/-! ## The choice stages -/

/-- Claim C8. In stage Gender the state of the sender advances to Height with
`scratch["gender"]` the text exactly when the text is one of the two labels; on
every other text the bot is left as it was and the re-prompt with the two-option
keyboard is sent. -/
theorem gender_stage_advances_iff_label (env : Env) (t : TelegramBot) (message : Message)
    (state : UserState)
    (hget : mapGet t.userStates message.FromID = some state)
    (hstage : state.CurrentState = StateGender) :
    ((∃ s', mapGet (handleMessage env t message).bot.userStates message.FromID = some s' ∧
        s'.CurrentState = StateHeight ∧
        mapGet s'.TemporaryData "gender" = some (Value.str message.Text)) ↔
      (message.Text = "Мужской" ∨ message.Text = "Женский")) ∧
    (¬ (message.Text = "Мужской" ∨ message.Text = "Женский") →
      (handleMessage env t message).bot = t ∧
      (handleMessage env t message).effects =
        [Effect.send
          { ChatID := message.ChatID, Text := "Пожалуйста, выберите пол с помощью кнопок ниже.",
            ReplyMarkup := Markup.replyKeyboard [["Мужской", "Женский"]] }] ∧
      (handleMessage env t message).panicked = false) := by
  have hne : StateGender ≠ StateHeight := by decide
  unfold handleMessage
  simp only [hget, hstage, if_true]
  by_cases hl : message.Text = "Мужской" ∨ message.Text = "Женский"
  · have hl2 : ¬ (message.Text ≠ "Мужской" ∧ message.Text ≠ "Женский") := by
      rcases hl with h | h <;> simp [h]
    simp [hl, hl2, putState, mapGet_mapSet_self]
  · have hl2 : message.Text ≠ "Мужской" ∧ message.Text ≠ "Женский" := by
      constructor
      · exact fun h => hl (Or.inl h)
      · exact fun h => hl (Or.inr h)
    simp [hl, hl2, hget, hstage, hne, genderKeyboard]

/-- Witness for C8: user 7 in stage Gender sends the second label. -/
theorem gender_stage_witness :
    mapGet (sampleBot ⟨7, StateGender, [], ""⟩).userStates 7 = some ⟨7, StateGender, [], ""⟩ ∧
      ∃ s', mapGet (handleMessage sampleEnv (sampleBot ⟨7, StateGender, [], ""⟩)
              (sampleText "Женский")).bot.userStates 7 = some s' ∧
        s'.CurrentState = StateHeight ∧
        mapGet s'.TemporaryData "gender" = some (Value.str "Женский") :=
  ⟨by decide,
   (gender_stage_advances_iff_label sampleEnv (sampleBot ⟨7, StateGender, [], ""⟩)
      (sampleText "Женский") ⟨7, StateGender, [], ""⟩ (by decide) (by decide)).1.2
      (Or.inr (by decide))⟩

/-- Claim C3. In stage Confirm the no label sends the sender back to Gender with an
empty scratch, whatever the scratch held, and the gender prompt with the two-option
keyboard is sent. -/
theorem confirm_no_resets_to_gender (env : Env) (t : TelegramBot) (message : Message)
    (state : UserState)
    (hget : mapGet t.userStates message.FromID = some state)
    (hstage : state.CurrentState = StateConfirm)
    (htext : message.Text = "Нет, изменить") :
    (∃ s', mapGet (handleMessage env t message).bot.userStates message.FromID = some s' ∧
        s'.CurrentState = StateGender ∧ s'.TemporaryData = []) ∧
    (handleMessage env t message).effects =
      [Effect.send
        { ChatID := message.ChatID, Text := "Давайте начнем заново. Выберите ваш пол:",
          ReplyMarkup := Markup.replyKeyboard [["Мужской", "Женский"]] }] ∧
    (handleMessage env t message).panicked = false := by
  have h1 : StateConfirm ≠ StateGender := by decide
  have h2 : StateConfirm ≠ StateHeight := by decide
  have h3 : StateConfirm ≠ StateWeight := by decide
  have h4 : StateConfirm ≠ StateGoal := by decide
  unfold handleMessage
  simp [hget, hstage, htext, h1, h2, h3, h4, putState, mapGet_mapSet_self, genderKeyboard]

/-- Witness for C3: user 7 declines the summary of a full scratch. -/
theorem confirm_no_witness :
    mapGet (sampleBot ⟨7, StateConfirm, sampleScratch, ""⟩).userStates 7 =
        some ⟨7, StateConfirm, sampleScratch, ""⟩ ∧
      ∃ s', mapGet (handleMessage sampleEnv (sampleBot ⟨7, StateConfirm, sampleScratch, ""⟩)
              (sampleText "Нет, изменить")).bot.userStates 7 = some s' ∧
        s'.CurrentState = StateGender ∧ s'.TemporaryData = [] :=
  ⟨by decide,
   (confirm_no_resets_to_gender sampleEnv (sampleBot ⟨7, StateConfirm, sampleScratch, ""⟩)
      (sampleText "Нет, изменить") ⟨7, StateConfirm, sampleScratch, ""⟩
      (by decide) (by decide) (by decide)).1⟩

/-- Claim C10. A `/start` command whose argument is neither `payment_success` nor
`payment_cancel` replaces the state of the sender, whatever it was, by a fresh Gender
state with empty scratch and empty session reference, sends the greeting with the
two-option keyboard, and leaves the state of every other user as it was. -/
theorem start_command_resets_sender (t : TelegramBot) (message : Message)
    (hcmd : message.Command = "start")
    (hsuccess : message.CommandArguments ≠ "payment_success")
    (hcancel : message.CommandArguments ≠ "payment_cancel") :
    mapGet (handleCommand t message).bot.userStates message.FromID =
        some { TelegramID := message.FromID, CurrentState := StateGender,
               TemporaryData := [], StripeSessionID := "" } ∧
    (handleCommand t message).effects =
      [Effect.send
        { ChatID := message.ChatID,
          Text := "👋 Приветствую! Я помогу вам создать персонализированный план питания. Для начала, укажите ваш пол:",
          ReplyMarkup := Markup.replyKeyboard [["Мужской", "Женский"]] }] ∧
    (∀ u, u ≠ message.FromID →
      mapGet (handleCommand t message).bot.userStates u = mapGet t.userStates u) := by
  unfold handleCommand
  simp only [hcmd, hsuccess, hcancel, if_true, if_false, handleCommandInit]
  refine ⟨?_, ?_, ?_⟩
  · simp [mapGet_mapSet_self, freshState]
  · simp [startMessage, genderKeyboard]
  · intro u hu
    exact mapGet_mapSet_ne _ _ _ _ hu

/-- Witness for C10: user 7, waiting in stage Payment, sends a plain `/start`. -/
theorem start_command_witness :
    mapGet (handleCommand (sampleBot ⟨7, StatePayment, sampleScratch, "cs_test_1"⟩)
        (startCommand 70 7 "ann")).bot.userStates 7 =
      some { TelegramID := 7, CurrentState := StateGender,
             TemporaryData := [], StripeSessionID := "" } :=
  (start_command_resets_sender (sampleBot ⟨7, StatePayment, sampleScratch, "cs_test_1"⟩)
    (startCommand 70 7 "ann") (by decide) (by decide) (by decide)).1

/-! ## Confirmation and the Payment stage -/

/-- Claim C4, evaluated. User 7 confirms a full scratch. When `SaveUser` fails the
bot is left as it was. When `SaveUser` succeeds and `CreateCheckoutSession` fails, the
stage was already set to Payment and stays so, with no session reference; the next
"yes" is not a retry: it falls into the default branch, calls no collaborator and
resets the state to Start. -/
theorem confirm_yes_checkout_failure_evaluated :
    (handleMessage { sampleEnv with saveUserFault := true }
        (sampleBot ⟨7, StateConfirm, sampleScratch, ""⟩) (sampleText "Да, всё верно")).bot =
      sampleBot ⟨7, StateConfirm, sampleScratch, ""⟩ ∧
    mapGet (handleMessage { sampleEnv with checkout := none }
        (sampleBot ⟨7, StateConfirm, sampleScratch, ""⟩)
        (sampleText "Да, всё верно")).bot.userStates 7 =
      some ⟨7, StatePayment, sampleScratch, ""⟩ ∧
    (handleMessage sampleEnv
        (handleMessage { sampleEnv with checkout := none }
          (sampleBot ⟨7, StateConfirm, sampleScratch, ""⟩) (sampleText "Да, всё верно")).bot
        (sampleText "Да, всё верно")).effects =
      [Effect.send (NewMessage 70
        "Извините, произошла ошибка. Пожалуйста, используйте /start для начала заново.")] ∧
    mapGet (handleMessage sampleEnv
        (handleMessage { sampleEnv with checkout := none }
          (sampleBot ⟨7, StateConfirm, sampleScratch, ""⟩) (sampleText "Да, всё верно")).bot
        (sampleText "Да, всё верно")).bot.userStates 7 =
      some ⟨7, StateStart, [], ""⟩ := by
  decide

/-- Claim C7, evaluated. User 7 waits in stage Payment with the session reference
"cs_test_1" and sends a text: the default branch answers with the error message and
replaces the state by a fresh Start state, the session reference is lost, and a later
`/start payment_success` no longer starts the completion handler. -/
theorem payment_stage_text_evaluated :
    (handleMessage sampleEnv (sampleBot ⟨7, StatePayment, sampleScratch, "cs_test_1"⟩)
        (sampleText "привет")).effects =
      [Effect.send (NewMessage 70
        "Извините, произошла ошибка. Пожалуйста, используйте /start для начала заново.")] ∧
    mapGet (handleMessage sampleEnv (sampleBot ⟨7, StatePayment, sampleScratch, "cs_test_1"⟩)
        (sampleText "привет")).bot.userStates 7 =
      some ⟨7, StateStart, [], ""⟩ ∧
    (handleCommand (sampleBot ⟨7, StatePayment, sampleScratch, "cs_test_1"⟩)
        { startCommand 70 7 "ann" with CommandArguments := "payment_success" }).effects =
      [Effect.send (NewMessage 70
         "Спасибо за оплату! Ваш персонализированный план питания будет готов в ближайшее время."),
       Effect.goHandlePaymentSuccess 7 "cs_test_1"] ∧
    (handleCommand
        (handleMessage sampleEnv (sampleBot ⟨7, StatePayment, sampleScratch, "cs_test_1"⟩)
          (sampleText "привет")).bot
        { startCommand 70 7 "ann" with CommandArguments := "payment_success" }).effects =
      [Effect.send (startMessage 70)] := by
  decide

/-! ## Step lemmas: what each accepting branch returns -/

theorem SaveUser_ok (db : DB) (user : User) :
    ∃ db1 stored, db.SaveUser false user = some (db1, stored) ∧
      db1.payments = db.payments ∧ db1.dietPlans = db.dietPlans ∧
      db1.nextPaymentID = db.nextPaymentID ∧ db1.nextPlanID = db.nextPlanID := by
  unfold DB.SaveUser
  cases h : db.users.find? (fun r => decide (r.TelegramID = user.TelegramID)) with
  | none => exact ⟨_, _, rfl, rfl, rfl, rfl, rfl⟩
  | some row => exact ⟨_, _, rfl, rfl, rfl, rfl, rfl⟩

theorem mapGet_of_outcome {o : Outcome} {b : TelegramBot} {u : Int} {s : UserState}
    {e : List Effect} {p : Bool} (h : o = ⟨putState b u s, e, p⟩) :
    mapGet o.bot.userStates u = some s := by
  subst h
  exact mapGet_mapSet_self _ _ _

theorem db_of_outcome {o : Outcome} {b : TelegramBot} {u : Int} {s : UserState}
    {e : List Effect} {p : Bool} (h : o = ⟨putState b u s, e, p⟩) :
    o.bot.db = b.db := by
  subst h
  rfl

theorem handleMessage_gender_accept (env : Env) (t : TelegramBot) (message : Message)
    (state : UserState)
    (hget : mapGet t.userStates message.FromID = some state)
    (hstage : state.CurrentState = StateGender)
    (hl : message.Text = "Мужской" ∨ message.Text = "Женский") :
    handleMessage env t message =
      { bot := putState t message.FromID
          { state with
              TemporaryData := mapSet state.TemporaryData "gender" (Value.str message.Text),
              CurrentState := StateHeight },
        effects :=
          [Effect.send
             { ChatID := message.ChatID,
               Text := "Спасибо! Теперь укажите ваш рост в сантиметрах (например, 175):",
               ReplyMarkup := Markup.removeKeyboard true }],
        panicked := false } := by
  have hl2 : ¬ (message.Text ≠ "Мужской" ∧ message.Text ≠ "Женский") := by
    rcases hl with h | h <;> simp [h]
  unfold handleMessage
  simp only [hget, hstage, hl2, if_true, if_false]

theorem handleMessage_height_accept (env : Env) (t : TelegramBot) (message : Message)
    (state : UserState) (height : Int)
    (hget : mapGet t.userStates message.FromID = some state)
    (hstage : state.CurrentState = StateHeight)
    (hparse : Atoi message.Text = some height) (hlo : 50 ≤ height) (hhi : height ≤ 250) :
    handleMessage env t message =
      { bot := putState t message.FromID
          { state with
              TemporaryData := mapSet state.TemporaryData "height" (Value.int height),
              CurrentState := StateWeight },
        effects :=
          [Effect.send (NewMessage message.ChatID
             "Спасибо! Теперь укажите ваш вес в килограммах (например, 70):")],
        panicked := false } := by
  have h1 : StateHeight ≠ StateGender := by decide
  have hr : ¬ (height < 50 ∨ height > 250) := by omega
  unfold handleMessage
  simp only [hget, hstage, h1, hparse, hr, if_true, if_false]

theorem handleMessage_weight_accept (env : Env) (t : TelegramBot) (message : Message)
    (state : UserState) (weight : Int)
    (hget : mapGet t.userStates message.FromID = some state)
    (hstage : state.CurrentState = StateWeight)
    (hparse : Atoi message.Text = some weight) (hlo : 30 ≤ weight) (hhi : weight ≤ 300) :
    handleMessage env t message =
      { bot := putState t message.FromID
          { state with
              TemporaryData := mapSet state.TemporaryData "weight" (Value.int weight),
              CurrentState := StateGoal },
        effects :=
          [Effect.send
             { ChatID := message.ChatID, Text := "Спасибо! Какая у вас цель?",
               ReplyMarkup := goalKeyboard }],
        panicked := false } := by
  have h1 : StateWeight ≠ StateGender := by decide
  have h2 : StateWeight ≠ StateHeight := by decide
  have hr : ¬ (weight < 30 ∨ weight > 300) := by omega
  unfold handleMessage
  simp only [hget, hstage, h1, h2, hparse, hr, if_true, if_false]

theorem handleMessage_goal_accept (env : Env) (t : TelegramBot) (message : Message)
    (state : UserState) (gender : String) (height weight : Int)
    (hget : mapGet t.userStates message.FromID = some state)
    (hstage : state.CurrentState = StateGoal)
    (hvalid : validGoals message.Text = true)
    (hg : mapGet state.TemporaryData "gender" = some (Value.str gender))
    (hh : mapGet state.TemporaryData "height" = some (Value.int height))
    (hw : mapGet state.TemporaryData "weight" = some (Value.int weight)) :
    handleMessage env t message =
      { bot := putState t message.FromID
          { state with
              TemporaryData := mapSet state.TemporaryData "goal" (Value.str message.Text),
              CurrentState := StateConfirm },
        effects :=
          [Effect.send
             { ChatID := message.ChatID,
               Text := summaryText gender height weight message.Text,
               ReplyMarkup := confirmKeyboard }],
        panicked := false } := by
  have h1 : StateGoal ≠ StateGender := by decide
  have h2 : StateGoal ≠ StateHeight := by decide
  have h3 : StateGoal ≠ StateWeight := by decide
  have e1 : mapGet (mapSet state.TemporaryData "goal" (Value.str message.Text)) "gender" =
      some (Value.str gender) := by
    rw [mapGet_mapSet_ne _ _ _ _ (by decide)]; exact hg
  have e2 : mapGet (mapSet state.TemporaryData "goal" (Value.str message.Text)) "height" =
      some (Value.int height) := by
    rw [mapGet_mapSet_ne _ _ _ _ (by decide)]; exact hh
  have e3 : mapGet (mapSet state.TemporaryData "goal" (Value.str message.Text)) "weight" =
      some (Value.int weight) := by
    rw [mapGet_mapSet_ne _ _ _ _ (by decide)]; exact hw
  unfold handleMessage
  simp [hget, hstage, h1, h2, h3, hvalid, e1, e2, e3, mapGet_mapSet_self, assertString,
    assertInt]

theorem handleMessage_confirm_yes (env : Env) (t : TelegramBot) (message : Message)
    (state : UserState)
    (hget : mapGet t.userStates message.FromID = some state)
    (hstage : state.CurrentState = StateConfirm)
    (htext : message.Text = "Да, всё верно") :
    handleMessage env t message = handleConfirmYes env t message state := by
  have h1 : StateConfirm ≠ StateGender := by decide
  have h2 : StateConfirm ≠ StateHeight := by decide
  have h3 : StateConfirm ≠ StateWeight := by decide
  have h4 : StateConfirm ≠ StateGoal := by decide
  have h5 : ¬ ("Да, всё верно" = "Нет, изменить") := by decide
  unfold handleMessage
  simp [hget, hstage, htext, h1, h2, h3, h4, h5]

theorem handleMessage_confirm_yes_success (env : Env) (t : TelegramBot) (message : Message)
    (state : UserState) (gender goal : String) (height weight : Int) (db1 : DB)
    (stored : User) (sessionID checkoutURL : String)
    (hget : mapGet t.userStates message.FromID = some state)
    (hstage : state.CurrentState = StateConfirm)
    (htext : message.Text = "Да, всё верно")
    (hg : mapGet state.TemporaryData "gender" = some (Value.str gender))
    (hh : mapGet state.TemporaryData "height" = some (Value.int height))
    (hw : mapGet state.TemporaryData "weight" = some (Value.int weight))
    (hgo : mapGet state.TemporaryData "goal" = some (Value.str goal))
    (hfault : env.saveUserFault = false)
    (hsave : t.db.SaveUser false
        ⟨0, message.FromID, message.ChatID, message.UserName, gender, height, weight,
          goalText goal⟩ = some (db1, stored))
    (hcheckout : env.checkout = some (sessionID, checkoutURL))
    (hpay : env.savePaymentFault = false) :
    handleMessage env t message =
      { bot := putState
          { t with db :=
              { db1 with
                  payments := db1.payments ++
                    [⟨db1.nextPaymentID, stored.ID, 1000, "rub", sessionID, "pending"⟩],
                  nextPaymentID := db1.nextPaymentID + 1 } }
          message.FromID
          { state with CurrentState := StatePayment, StripeSessionID := sessionID },
        effects :=
          [Effect.saveUser
             ⟨0, message.FromID, message.ChatID, message.UserName, gender, height, weight,
               goalText goal⟩,
           Effect.send
             { ChatID := message.ChatID,
               Text := "Спасибо! Ваши данные сохранены. Для получения персонализированного плана питания, требуется оплата в размере 1000 руб.",
               ReplyMarkup := Markup.removeKeyboard true },
           Effect.createCheckoutSession message.FromID
             ("https://t.me/" ++ t.selfUserName ++ "?start=payment_success")
             ("https://t.me/" ++ t.selfUserName ++ "?start=payment_cancel"),
           Effect.savePayment ⟨0, stored.ID, 1000, "rub", sessionID, "pending"⟩,
           Effect.send
             { ChatID := message.ChatID,
               Text := "Нажмите на кнопку ниже, чтобы перейти к оплате:",
               ReplyMarkup := Markup.inlineKeyboardURL [[("Оплатить", checkoutURL)]] }],
        panicked := false } := by
  rw [handleMessage_confirm_yes env t message state hget hstage htext]
  unfold handleConfirmYes
  simp [hg, hh, hw, hgo, hfault, hsave, hcheckout, hpay, assertString, assertInt,
    DB.SavePayment]

/-! ## The happy path -/

/-- Claim C5. From `/start`, a gender label, a height in `[50, 250]`, a weight in
`[30, 300]`, a goal label and the yes label, sent in that order while the profile
upsert, the checkout session and the payment insert succeed: the run calls `SaveUser`
once, with those answers; it calls `SavePayment` once, with status "pending", the
session id returned by `CreateCheckoutSession` and the user id returned by the
upsert; the store is the one left by that upsert plus that one payment row; the
session id is stored on the conversation state, whose stage is Payment. -/
theorem happy_path_reaches_payment (t : TelegramBot) (chatID userID : Int) (userName : String)
    (e0 e1 e2 e3 e4 e5 : Env) (gender heightText weightText goal : String)
    (height weight : Int) (sessionID checkoutURL : String)
    (hgender : gender = "Мужской" ∨ gender = "Женский")
    (hheight : Atoi heightText = some height) (hh1 : 50 ≤ height) (hh2 : height ≤ 250)
    (hweight : Atoi weightText = some weight) (hw1 : 30 ≤ weight) (hw2 : weight ≤ 300)
    (hgoal : goal = "Снизить вес" ∨ goal = "Поддерживать вес" ∨ goal = "Набрать вес")
    (hsave : e5.saveUserFault = false)
    (hcheckout : e5.checkout = some (sessionID, checkoutURL))
    (hpay : e5.savePaymentFault = false) :
    ∃ db1 stored,
      t.db.SaveUser false
          ⟨0, userID, chatID, userName, gender, height, weight, goalText goal⟩ =
        some (db1, stored) ∧
      (run t
        [(e0, Update.command (startCommand chatID userID userName)),
         (e1, Update.text (textMessage chatID userID userName gender)),
         (e2, Update.text (textMessage chatID userID userName heightText)),
         (e3, Update.text (textMessage chatID userID userName weightText)),
         (e4, Update.text (textMessage chatID userID userName goal)),
         (e5, Update.text (textMessage chatID userID userName "Да, всё верно"))]).1.db =
        { db1 with
            payments := t.db.payments ++
              [⟨t.db.nextPaymentID, stored.ID, 1000, "rub", sessionID, "pending"⟩],
            nextPaymentID := t.db.nextPaymentID + 1 } ∧
      (run t
        [(e0, Update.command (startCommand chatID userID userName)),
         (e1, Update.text (textMessage chatID userID userName gender)),
         (e2, Update.text (textMessage chatID userID userName heightText)),
         (e3, Update.text (textMessage chatID userID userName weightText)),
         (e4, Update.text (textMessage chatID userID userName goal)),
         (e5, Update.text (textMessage chatID userID userName "Да, всё верно"))]).2.filter
          Effect.isSaveUser =
        [Effect.saveUser
          ⟨0, userID, chatID, userName, gender, height, weight, goalText goal⟩] ∧
      (run t
        [(e0, Update.command (startCommand chatID userID userName)),
         (e1, Update.text (textMessage chatID userID userName gender)),
         (e2, Update.text (textMessage chatID userID userName heightText)),
         (e3, Update.text (textMessage chatID userID userName weightText)),
         (e4, Update.text (textMessage chatID userID userName goal)),
         (e5, Update.text (textMessage chatID userID userName "Да, всё верно"))]).2.filter
          Effect.isSavePayment =
        [Effect.savePayment ⟨0, stored.ID, 1000, "rub", sessionID, "pending"⟩] ∧
      mapGet (run t
        [(e0, Update.command (startCommand chatID userID userName)),
         (e1, Update.text (textMessage chatID userID userName gender)),
         (e2, Update.text (textMessage chatID userID userName heightText)),
         (e3, Update.text (textMessage chatID userID userName weightText)),
         (e4, Update.text (textMessage chatID userID userName goal)),
         (e5, Update.text (textMessage chatID userID userName "Да, всё верно"))]).1.userStates
          userID =
        some ⟨userID, StatePayment,
          [("goal", Value.str goal), ("weight", Value.int weight),
           ("height", Value.int height), ("gender", Value.str gender)], sessionID⟩ := by
  obtain ⟨db1, stored, hsu, hp, -, hnp, -⟩ := SaveUser_ok t.db
    ⟨0, userID, chatID, userName, gender, height, weight, goalText goal⟩
  refine ⟨db1, stored, hsu, ?_⟩
  have s0 : handleCommand t (startCommand chatID userID userName) =
      handleCommandInit t (startCommand chatID userID userName) := by
    simp [handleCommand, startCommand]
  have g1 : mapGet (handleCommandInit t (startCommand chatID userID userName)).bot.userStates
      (textMessage chatID userID userName gender).FromID =
      some (freshState userID StateGender) := by
    simp [handleCommandInit, startCommand, textMessage, mapGet_mapSet_self]
  have s1 := handleMessage_gender_accept e1 _ (textMessage chatID userID userName gender) _
    g1 rfl hgender
  have s2 := handleMessage_height_accept e2 _ (textMessage chatID userID userName heightText)
    _ height (mapGet_of_outcome s1) rfl hheight hh1 hh2
  have s3 := handleMessage_weight_accept e3 _ (textMessage chatID userID userName weightText)
    _ weight (mapGet_of_outcome s2) rfl hweight hw1 hw2
  have s4 := handleMessage_goal_accept e4 _ (textMessage chatID userID userName goal)
    _ gender height weight (mapGet_of_outcome s3) rfl ((validGoals_iff goal).2 hgoal)
    rfl rfl rfl
  have hdb := (db_of_outcome s4).trans ((db_of_outcome s3).trans
    ((db_of_outcome s2).trans (db_of_outcome s1)))
  have s5 := handleMessage_confirm_yes_success e5 _
    (textMessage chatID userID userName "Да, всё верно") _ gender goal height weight db1 stored
    sessionID checkoutURL (mapGet_of_outcome s4) rfl rfl rfl rfl rfl rfl hsave
    (by rw [hdb]; exact hsu) hcheckout hpay
  simp only [run, step]
  rw [s0, s5, s4, s3, s2, s1]
  refine ⟨?_, ?_, ?_, ?_⟩
  · simp [putState, hp, hnp, handleCommandInit]
  · simp [List.filter, Effect.isSaveUser, handleCommandInit, textMessage]
  · simp [List.filter, Effect.isSavePayment, handleCommandInit]
  · simp [putState, textMessage, freshState, mapSet, mapGet]

/-- Witness for C5: gender "Женский", height 175, weight 70 and the goal of reducing
weight, on a bot without conversations over the empty store. -/
theorem happy_path_witness :
    Atoi "175" = some 175 ∧ Atoi "70" = some 70 ∧
      mapGet (run emptyBot
        [(sampleEnv, Update.command (startCommand 70 7 "ann")),
         (sampleEnv, Update.text (textMessage 70 7 "ann" "Женский")),
         (sampleEnv, Update.text (textMessage 70 7 "ann" "175")),
         (sampleEnv, Update.text (textMessage 70 7 "ann" "70")),
         (sampleEnv, Update.text (textMessage 70 7 "ann" "Снизить вес")),
         (sampleEnv, Update.text (textMessage 70 7 "ann" "Да, всё верно"))]).1.userStates 7 =
        some ⟨7, StatePayment,
          [("goal", Value.str "Снизить вес"), ("weight", Value.int 70),
           ("height", Value.int 175), ("gender", Value.str "Женский")], "cs_test_1"⟩ :=
  ⟨by decide, by decide,
   (happy_path_reaches_payment emptyBot 70 7 "ann" sampleEnv sampleEnv sampleEnv sampleEnv
      sampleEnv sampleEnv "Женский" "175" "70" "Снизить вес" 175 70 "cs_test_1"
      "https://checkout.stripe.com/pay/cs_test_1" (Or.inr rfl) (by decide) (by decide)
      (by decide) (by decide) (by decide) (by decide) (Or.inl rfl) rfl rfl rfl).elim
      (fun _ h => h.elim (fun _ h => h.2.2.2.2))⟩

/-! ## Lemmas on the completion handler -/

theorem find?_of_filter_eq_singleton {α : Type} (q : α → Bool) (l : List α) (a : α)
    (h : l.filter q = [a]) : l.find? q = some a := by
  induction l with
  | nil => simp at h
  | cons x xs ih =>
    by_cases hx : q x = true
    · simp only [List.filter, hx] at h
      simp only [List.find?, hx]
      exact congrArg some (List.cons.inj h).1
    · have hx2 : q x = false := by simpa using hx
      simp only [List.filter, hx2] at h
      simp only [List.find?, hx2]
      exact ih h

/-- The status update does not touch the reference of a row. -/
theorem payments_filter_update (payments : List Payment) (ref status : String) :
    (payments.map (fun r =>
        if r.StripePaymentID = ref then { r with Status := status } else r)).filter
        (fun r => decide (r.StripePaymentID = ref)) =
      (payments.filter (fun r => decide (r.StripePaymentID = ref))).map
        (fun r => { r with Status := status }) := by
  induction payments with
  | nil => rfl
  | cons x xs ih =>
    by_cases hx : x.StripePaymentID = ref
    · simp [List.filter, hx, ih]
    · simp [List.filter, hx, ih]

/-- The run of `handlePaymentSuccess` in which every collaborator succeeds, for a
stored profile and a stored payment row under the reference. -/
theorem handlePaymentSuccess_success (env : Env) (t : TelegramBot) (userID : Int)
    (ref : String) (user : User) (payment : Payment) (planText : String)
    (hf1 : env.getUserFault = false) (hf2 : env.updatePaymentStatusFault = false)
    (hf3 : env.getPaymentFault = false) (hplan : env.plan = some planText)
    (hf4 : env.saveDietPlanFault = false)
    (huser : t.db.users.find? (fun r => decide (r.TelegramID = userID)) = some user)
    (hpay : t.db.payments.filter (fun r => decide (r.StripePaymentID = ref)) = [payment]) :
    handlePaymentSuccess env t userID ref =
      { bot :=
          { t with
              db :=
                { t.db with
                    payments := t.db.payments.map (fun r =>
                      if r.StripePaymentID = ref then { r with Status := "completed" } else r),
                    dietPlans := t.db.dietPlans ++
                      [⟨t.db.nextPlanID, user.ID, payment.ID, planText⟩],
                    nextPlanID := t.db.nextPlanID + 1 },
              userStates :=
                match mapGet t.userStates userID with
                | some state =>
                  mapSet t.userStates userID { state with CurrentState := StateComplete }
                | none => t.userStates },
        effects :=
          [Effect.getUser userID, Effect.updatePaymentStatus ref "completed",
           Effect.getPaymentByStripeID ref, Effect.generateDietPlan user,
           Effect.saveDietPlan ⟨0, user.ID, payment.ID, planText⟩,
           Effect.send (NewMessage user.ChatID
             ("🎉 Ваш персонализированный план питания готов!\n\n" ++ planText))],
        panicked := false } := by
  have hfind : (t.db.payments.map (fun r =>
      if r.StripePaymentID = ref then { r with Status := "completed" } else r)).find?
      (fun r => decide (r.StripePaymentID = ref)) =
      some { payment with Status := "completed" } := by
    apply find?_of_filter_eq_singleton
    rw [payments_filter_update, hpay]
    rfl
  unfold handlePaymentSuccess
  simp only [DB.GetUser, DB.UpdatePaymentStatus, DB.GetPaymentByStripeID, DB.SaveDietPlan,
    hf1, hf2, hf3, hf4, hplan, huser, hfind]
  simp [-List.find?_map, hfind]

/-! ## The completion handler run twice -/

/-- Counterexample to C6 as stated: on a store with the profile of user 7 and one
pending payment under "cs_test_1", the second run of `handlePaymentSuccess` calls
`GenerateDietPlan` and `SaveDietPlan` again, and two plan rows are left for the
payment. -/
theorem completion_twice_counterexample :
    (handlePaymentSuccess sampleEnv
        (handlePaymentSuccess sampleEnv pendingBot 7 "cs_test_1").bot 7 "cs_test_1").effects.filter
        Effect.isGenerateDietPlan =
      [Effect.generateDietPlan ⟨1, 7, 70, "ann", "Женский", 175, 70, "Снизить"⟩] ∧
    (handlePaymentSuccess sampleEnv
        (handlePaymentSuccess sampleEnv pendingBot 7 "cs_test_1").bot 7 "cs_test_1").effects.filter
        Effect.isSaveDietPlan =
      [Effect.saveDietPlan ⟨0, 1, 1, "1800 kcal"⟩] ∧
    (handlePaymentSuccess sampleEnv
        (handlePaymentSuccess sampleEnv pendingBot 7 "cs_test_1").bot 7 "cs_test_1").bot.db.dietPlans =
      [⟨1, 1, 1, "1800 kcal"⟩, ⟨2, 1, 1, "1800 kcal"⟩] ∧
    (handlePaymentSuccess sampleEnv
        (handlePaymentSuccess sampleEnv pendingBot 7 "cs_test_1").bot 7 "cs_test_1").bot.db.payments =
      [⟨1, 1, 1000, "rub", "cs_test_1", "completed"⟩] := by
  decide

/-- Claim C6, amended. Two runs of `handlePaymentSuccess` with the same user and
reference, on a store that holds the profile and one payment row under the
reference, every collaborator succeeding: one payment row is left under the
reference, with status "completed"; each run appends one plan row for that payment,
so two are added; the second run calls `GenerateDietPlan` once and `SaveDietPlan`
once. -/
theorem completion_twice_adds_two_plans (env1 env2 : Env) (t : TelegramBot) (userID : Int)
    (ref : String) (user : User) (payment : Payment) (text1 text2 : String)
    (h11 : env1.getUserFault = false) (h12 : env1.updatePaymentStatusFault = false)
    (h13 : env1.getPaymentFault = false) (h14 : env1.plan = some text1)
    (h15 : env1.saveDietPlanFault = false)
    (h21 : env2.getUserFault = false) (h22 : env2.updatePaymentStatusFault = false)
    (h23 : env2.getPaymentFault = false) (h24 : env2.plan = some text2)
    (h25 : env2.saveDietPlanFault = false)
    (huser : t.db.users.find? (fun r => decide (r.TelegramID = userID)) = some user)
    (hpay : t.db.payments.filter (fun r => decide (r.StripePaymentID = ref)) = [payment]) :
    (handlePaymentSuccess env2 (handlePaymentSuccess env1 t userID ref).bot
        userID ref).bot.db.payments.filter (fun r => decide (r.StripePaymentID = ref)) =
      [{ payment with Status := "completed" }] ∧
    (handlePaymentSuccess env2 (handlePaymentSuccess env1 t userID ref).bot
        userID ref).bot.db.dietPlans =
      t.db.dietPlans ++
        [⟨t.db.nextPlanID, user.ID, payment.ID, text1⟩,
         ⟨t.db.nextPlanID + 1, user.ID, payment.ID, text2⟩] ∧
    (handlePaymentSuccess env2 (handlePaymentSuccess env1 t userID ref).bot
        userID ref).effects.filter Effect.isGenerateDietPlan =
      [Effect.generateDietPlan user] ∧
    (handlePaymentSuccess env2 (handlePaymentSuccess env1 t userID ref).bot
        userID ref).effects.filter Effect.isSaveDietPlan =
      [Effect.saveDietPlan ⟨0, user.ID, payment.ID, text2⟩] := by
  have r1 := handlePaymentSuccess_success env1 t userID ref user payment text1
    h11 h12 h13 h14 h15 huser hpay
  have hpay1 : (handlePaymentSuccess env1 t userID ref).bot.db.payments.filter
      (fun r => decide (r.StripePaymentID = ref)) = [{ payment with Status := "completed" }] := by
    rw [r1]
    show List.filter _ (List.map _ t.db.payments) = _
    rw [payments_filter_update, hpay]
    rfl
  have huser1 : (handlePaymentSuccess env1 t userID ref).bot.db.users.find?
      (fun r => decide (r.TelegramID = userID)) = some user := by
    rw [r1]; exact huser
  have r2 := handlePaymentSuccess_success env2 _ userID ref user _ text2
    h21 h22 h23 h24 h25 huser1 hpay1
  rw [r2]
  refine ⟨?_, ?_, ?_, ?_⟩
  · show List.filter _ (List.map _ _) = _
    rw [payments_filter_update, hpay1]
    rfl
  · rw [r1]
    simp
  · simp [List.filter, Effect.isGenerateDietPlan]
  · simp [List.filter, Effect.isSaveDietPlan]

/-- Witness for C6: the two runs on the sample store with one pending payment. -/
theorem completion_twice_witness :
    pendingBot.db.payments.filter (fun r => decide (r.StripePaymentID = "cs_test_1")) =
        [⟨1, 1, 1000, "rub", "cs_test_1", "pending"⟩] ∧
      (handlePaymentSuccess sampleEnv (handlePaymentSuccess sampleEnv pendingBot 7 "cs_test_1").bot
          7 "cs_test_1").bot.db.dietPlans =
        pendingBot.db.dietPlans ++
          [⟨pendingBot.db.nextPlanID, 1, 1, "1800 kcal"⟩,
           ⟨pendingBot.db.nextPlanID + 1, 1, 1, "1800 kcal"⟩] :=
  ⟨by decide,
   (completion_twice_adds_two_plans sampleEnv sampleEnv pendingBot 7 "cs_test_1"
      ⟨1, 7, 70, "ann", "Женский", 175, 70, "Снизить"⟩
      ⟨1, 1, 1000, "rub", "cs_test_1", "pending"⟩ "1800 kcal" "1800 kcal"
      rfl rfl rfl rfl rfl rfl rfl rfl rfl rfl (by decide) (by decide)).2.1⟩

/-! ## The completion handler: failures after the payment fetch -/

/-- Claim C11. When the profile lookup, the status update and the payment fetch
succeed and `GenerateDietPlan` fails, the handler calls `GenerateDietPlan` once, sends
one message, the error notification to the chat of the profile, calls `SaveDietPlan`
not at all, leaves the plan table and every conversation state as they were, and
stops. -/
theorem completion_generation_failure (env : Env) (t : TelegramBot) (userID : Int)
    (ref : String) (user : User) (db1 : DB) (payment : Payment)
    (huser : t.db.GetUser env.getUserFault userID = some user)
    (hupdate : t.db.UpdatePaymentStatus env.updatePaymentStatusFault ref "completed" = some db1)
    (hpayment : db1.GetPaymentByStripeID env.getPaymentFault ref = some payment)
    (hplan : env.plan = none) :
    (handlePaymentSuccess env t userID ref).effects =
      [Effect.getUser userID, Effect.updatePaymentStatus ref "completed",
       Effect.getPaymentByStripeID ref, Effect.generateDietPlan user,
       Effect.send (NewMessage user.ChatID
         "К сожалению, произошла ошибка при создании плана питания. Пожалуйста, свяжитесь с поддержкой.")] ∧
    (handlePaymentSuccess env t userID ref).effects.filter Effect.isGenerateDietPlan =
      [Effect.generateDietPlan user] ∧
    (handlePaymentSuccess env t userID ref).effects.filter Effect.isSaveDietPlan = [] ∧
    (handlePaymentSuccess env t userID ref).bot.db.dietPlans = t.db.dietPlans ∧
    (handlePaymentSuccess env t userID ref).bot.userStates = t.userStates := by
  have hd : db1.dietPlans = t.db.dietPlans := by
    unfold DB.UpdatePaymentStatus at hupdate
    split at hupdate
    · simp at hupdate
    · cases hupdate; rfl
  unfold handlePaymentSuccess
  simp [huser, hupdate, hpayment, hplan, hd, Effect.isGenerateDietPlan, Effect.isSaveDietPlan]

/-- Witness for C11: the sample store with a pending payment, the generative-text
call failing. -/
theorem completion_generation_failure_witness :
    pendingDB.GetUser false 7 = some ⟨1, 7, 70, "ann", "Женский", 175, 70, "Снизить"⟩ ∧
      (handlePaymentSuccess { sampleEnv with plan := none } pendingBot 7 "cs_test_1").effects.filter
          Effect.isSaveDietPlan = [] ∧
      (handlePaymentSuccess { sampleEnv with plan := none } pendingBot 7
          "cs_test_1").bot.userStates = pendingBot.userStates :=
  ⟨by decide,
   (completion_generation_failure { sampleEnv with plan := none } pendingBot 7 "cs_test_1"
      ⟨1, 7, 70, "ann", "Женский", 175, 70, "Снизить"⟩
      { pendingDB with payments := [⟨1, 1, 1000, "rub", "cs_test_1", "completed"⟩] }
      ⟨1, 1, 1000, "rub", "cs_test_1", "completed"⟩
      (by decide) (by decide) (by decide) rfl).2.2.1,
   (completion_generation_failure { sampleEnv with plan := none } pendingBot 7 "cs_test_1"
      ⟨1, 7, 70, "ann", "Женский", 175, 70, "Снизить"⟩
      { pendingDB with payments := [⟨1, 1, 1000, "rub", "cs_test_1", "completed"⟩] }
      ⟨1, 1, 1000, "rub", "cs_test_1", "completed"⟩
      (by decide) (by decide) (by decide) rfl).2.2.2.2⟩

/-- Claim C12. When the profile lookup, the status update, the payment fetch and
`GenerateDietPlan` succeed, then whether `SaveDietPlan` succeeds or fails the plan text
is sent to the chat of the profile; a conversation state of the user, if there is one,
gets the stage Complete and keeps its scratch and its session reference; if there is
none, none is created. -/
theorem completion_delivers_despite_persistence (env : Env) (t : TelegramBot) (userID : Int)
    (ref : String) (user : User) (db1 : DB) (payment : Payment) (planText : String)
    (huser : t.db.GetUser env.getUserFault userID = some user)
    (hupdate : t.db.UpdatePaymentStatus env.updatePaymentStatusFault ref "completed" = some db1)
    (hpayment : db1.GetPaymentByStripeID env.getPaymentFault ref = some payment)
    (hplan : env.plan = some planText) :
    Effect.send (NewMessage user.ChatID
        ("🎉 Ваш персонализированный план питания готов!\n\n" ++ planText)) ∈
      (handlePaymentSuccess env t userID ref).effects ∧
    (∀ state, mapGet t.userStates userID = some state →
      mapGet (handlePaymentSuccess env t userID ref).bot.userStates userID =
        some { state with CurrentState := StateComplete }) ∧
    (mapGet t.userStates userID = none →
      (handlePaymentSuccess env t userID ref).bot.userStates = t.userStates) := by
  unfold handlePaymentSuccess
  simp only [huser, hupdate, hpayment, hplan]
  refine ⟨by simp, ?_, ?_⟩
  · intro state hstate
    simp [hstate, mapGet_mapSet_self]
  · intro hnone
    simp [hnone]

/-- Witness for C12: the sample store with a pending payment, the plan insert
failing. -/
theorem completion_delivers_witness :
    pendingDB.GetUser false 7 = some ⟨1, 7, 70, "ann", "Женский", 175, 70, "Снизить"⟩ ∧
      mapGet (handlePaymentSuccess { sampleEnv with saveDietPlanFault := true } pendingBot 7
          "cs_test_1").bot.userStates 7 =
        some ⟨7, StateComplete, sampleScratch, "cs_test_1"⟩ :=
  ⟨by decide,
   (completion_delivers_despite_persistence { sampleEnv with saveDietPlanFault := true }
      pendingBot 7 "cs_test_1" ⟨1, 7, 70, "ann", "Женский", 175, 70, "Снизить"⟩
      { pendingDB with payments := [⟨1, 1, 1000, "rub", "cs_test_1", "completed"⟩] }
      ⟨1, 1, 1000, "rub", "cs_test_1", "completed"⟩ "1800 kcal"
      (by decide) (by decide) (by decide) rfl).2.1
      ⟨7, StatePayment, sampleScratch, "cs_test_1"⟩ (by decide)⟩

/-! ## The webhook -/

/-- Claim C13. A POST request, the webhook secret being configured, whose
`Stripe-Signature` header is missing or whose signature is not verified, is answered
with status 400 and starts no completion handler, whatever the body. -/
theorem webhook_rejects_bad_signature (stripeClient : StripeClient) (r : Request)
    (hpost : r.Method = "POST")
    (hsecret : stripeClient.webhookSecret ≠ "")
    (hsig : r.StripeSignature = "" ∨
      ∀ body, r.Body = some body →
        stripeClient.VerifyWebhookSignature body r.StripeSignature stripeClient.webhookSecret =
          none) :
    (HandleStripeWebhook stripeClient r).status = 400 ∧
    (HandleStripeWebhook stripeClient r).effects = [] := by
  unfold HandleStripeWebhook
  simp only [hpost, ne_eq, not_true_eq_false, if_false, hsecret]
  cases hb : r.Body with
  | none => simp
  | some body =>
    rcases hsig with h | h
    · simp [h]
    · by_cases hs : r.StripeSignature = ""
      · simp [hs]
      · simp [hs, h body hb]

/-- Witness for C13: a POST to the sample library with a signature it rejects. -/
theorem webhook_bad_signature_witness :
    (HandleStripeWebhook sampleStripe ⟨"POST", some "session", "t=1,v1=bad"⟩).status = 400 ∧
      (HandleStripeWebhook sampleStripe ⟨"POST", some "session", "t=1,v1=bad"⟩).effects = [] :=
  webhook_rejects_bad_signature sampleStripe ⟨"POST", some "session", "t=1,v1=bad"⟩
    (by decide) (by decide)
    (Or.inr (fun body _ => by
      simp [StripeClient.VerifyWebhookSignature, sampleStripe]))

/-- Claim C14. A POST request with a verified signature whose event is of type
"checkout.session.completed" and whose session has an empty client reference id is
answered with status 400 and starts no completion handler. -/
theorem webhook_rejects_missing_reference (stripeClient : StripeClient) (r : Request)
    (body : String) (event : Event) (session : CheckoutSession)
    (hpost : r.Method = "POST")
    (hbody : r.Body = some body)
    (hverify :
      stripeClient.VerifyWebhookSignature body r.StripeSignature stripeClient.webhookSecret =
        some event)
    (htype : event.Type_ = "checkout.session.completed")
    (hsession : stripeClient.unmarshalSession event.Raw = some session)
    (href : session.ClientReferenceID = "") :
    (HandleStripeWebhook stripeClient r).status = 400 ∧
    (HandleStripeWebhook stripeClient r).effects = [] := by
  have hsecret : stripeClient.webhookSecret ≠ "" := by
    intro h
    simp [StripeClient.VerifyWebhookSignature, h] at hverify
  unfold HandleStripeWebhook
  simp only [hpost, ne_eq, not_true_eq_false, if_false, hsecret, hbody]
  by_cases hs : r.StripeSignature = ""
  · simp [hs]
  · simp [hs, hverify, htype, hsession, href]

/-- Witness for C14: the sample library decodes a session without client
reference. -/
theorem webhook_missing_reference_witness :
    (HandleStripeWebhook sampleStripe
        ⟨"POST", some "session-without-reference", "t=1,v1=good"⟩).status = 400 ∧
      (HandleStripeWebhook sampleStripe
        ⟨"POST", some "session-without-reference", "t=1,v1=good"⟩).effects = [] :=
  webhook_rejects_missing_reference sampleStripe
    ⟨"POST", some "session-without-reference", "t=1,v1=good"⟩ "session-without-reference"
    ⟨"checkout.session.completed", "session-without-reference"⟩
    ⟨"cs_test_1", "", some ⟨"pi_test_1"⟩⟩ (by decide) (by decide) (by decide) (by decide)
    (by decide) (by decide)

/-- Claim C18, evaluated. Over the store with one pending payment under the session id
"cs_test_1", the verified event of that session, of client 7 and with payment intent
"pi_test_1", starts the completion handler with the reference "pi_test_1", the id of
the payment intent; run with it the handler finds no payment row, leaves the store as
it was, the payment pending, and generates nothing. Run with "cs_test_1", as the
deep link does, it marks the payment completed. -/
theorem webhook_reference_evaluated :
    HandleStripeWebhook sampleStripe ⟨"POST", some "session", "t=1,v1=good"⟩ =
      ⟨200, "Webhook received", [Effect.goHandlePaymentSuccess 7 "pi_test_1"]⟩ ∧
    (handlePaymentSuccess sampleEnv pendingBot 7 "pi_test_1").bot.db = pendingDB ∧
    (handlePaymentSuccess sampleEnv pendingBot 7 "pi_test_1").effects =
      [Effect.getUser 7, Effect.updatePaymentStatus "pi_test_1" "completed",
       Effect.getPaymentByStripeID "pi_test_1"] ∧
    (handleCommand pendingBot
        { startCommand 70 7 "ann" with CommandArguments := "payment_success" }).effects =
      [Effect.send (NewMessage 70
         "Спасибо за оплату! Ваш персонализированный план питания будет готов в ближайшее время."),
       Effect.goHandlePaymentSuccess 7 "cs_test_1"] ∧
    (handlePaymentSuccess sampleEnv pendingBot 7 "cs_test_1").bot.db.payments =
      [⟨1, 1, 1000, "rub", "cs_test_1", "completed"⟩] := by
  decide

/-! ## The default branch and the deep link -/

/-- Claim C17. A text of a user whose conversation state has a stage other than
Gender, Height, Weight, Goal and Confirm replaces that state by a fresh Start state,
with empty scratch and empty session reference, and is answered by the error message
that points to `/start`. -/
theorem unhandled_stage_resets_to_start (env : Env) (t : TelegramBot) (message : Message)
    (state : UserState)
    (hget : mapGet t.userStates message.FromID = some state)
    (h1 : state.CurrentState ≠ StateGender) (h2 : state.CurrentState ≠ StateHeight)
    (h3 : state.CurrentState ≠ StateWeight) (h4 : state.CurrentState ≠ StateGoal)
    (h5 : state.CurrentState ≠ StateConfirm) :
    mapGet (handleMessage env t message).bot.userStates message.FromID =
      some { TelegramID := message.FromID, CurrentState := StateStart,
             TemporaryData := [], StripeSessionID := "" } ∧
    (handleMessage env t message).effects =
      [Effect.send (NewMessage message.ChatID
        "Извините, произошла ошибка. Пожалуйста, используйте /start для начала заново.")] ∧
    (handleMessage env t message).panicked = false := by
  unfold handleMessage
  simp [hget, h1, h2, h3, h4, h5, putState, mapGet_mapSet_self, freshState]

/-- Witness for C17: user 7, whose plan was delivered, sends a text. -/
theorem unhandled_stage_witness :
    mapGet (sampleBot ⟨7, StateComplete, sampleScratch, "cs_test_1"⟩).userStates 7 =
        some ⟨7, StateComplete, sampleScratch, "cs_test_1"⟩ ∧
      mapGet (handleMessage sampleEnv (sampleBot ⟨7, StateComplete, sampleScratch, "cs_test_1"⟩)
          (sampleText "спасибо")).bot.userStates 7 =
        some { TelegramID := 7, CurrentState := StateStart,
               TemporaryData := [], StripeSessionID := "" } :=
  ⟨by decide,
   (unhandled_stage_resets_to_start sampleEnv
      (sampleBot ⟨7, StateComplete, sampleScratch, "cs_test_1"⟩) (sampleText "спасибо")
      ⟨7, StateComplete, sampleScratch, "cs_test_1"⟩ (by decide) (by decide) (by decide)
      (by decide) (by decide) (by decide)).1⟩

/-- Claim C20. On `/start payment_success` the completion handler is started exactly
when the sender has a conversation state with a non-empty session reference, whatever
its stage and whatever the store holds; it is then started once, with the sender and
that reference, after the thanks message, and the bot is left as it was. Otherwise the
command does what a plain `/start` does: the state of the sender becomes a fresh Gender
state and the greeting is sent. -/
theorem deep_link_starts_completion_iff_session (t : TelegramBot) (message : Message)
    (hcmd : message.Command = "start")
    (hargs : message.CommandArguments = "payment_success") :
    ((∃ userID ref, Effect.goHandlePaymentSuccess userID ref ∈ (handleCommand t message).effects) ↔
      ∃ state, mapGet t.userStates message.FromID = some state ∧ state.StripeSessionID ≠ "") ∧
    (∀ state, mapGet t.userStates message.FromID = some state → state.StripeSessionID ≠ "" →
      (handleCommand t message).bot = t ∧
      (handleCommand t message).effects =
        [Effect.send (NewMessage message.ChatID
           "Спасибо за оплату! Ваш персонализированный план питания будет готов в ближайшее время."),
         Effect.goHandlePaymentSuccess message.FromID state.StripeSessionID]) ∧
    (¬ (∃ state, mapGet t.userStates message.FromID = some state ∧ state.StripeSessionID ≠ "") →
      mapGet (handleCommand t message).bot.userStates message.FromID =
        some { TelegramID := message.FromID, CurrentState := StateGender,
               TemporaryData := [], StripeSessionID := "" } ∧
      (handleCommand t message).effects =
        [Effect.send
          { ChatID := message.ChatID,
            Text := "👋 Приветствую! Я помогу вам создать персонализированный план питания. Для начала, укажите ваш пол:",
            ReplyMarkup := Markup.replyKeyboard [["Мужской", "Женский"]] }]) := by
  unfold handleCommand
  simp only [hcmd, hargs, if_true]
  cases hget : mapGet t.userStates message.FromID with
  | none =>
    simp [handleCommandInit, mapGet_mapSet_self, freshState, startMessage, genderKeyboard]
  | some state =>
    by_cases hs : state.StripeSessionID = ""
    · simp [hs, handleCommandInit, mapGet_mapSet_self, freshState, startMessage, genderKeyboard]
    · simp [hs]

/-- Witness for C20: user 7 returns through the deep link while in stage Payment. -/
theorem deep_link_witness :
    (handleCommand pendingBot
        { startCommand 70 7 "ann" with CommandArguments := "payment_success" }).bot =
        pendingBot ∧
      (handleCommand pendingBot
        { startCommand 70 7 "ann" with CommandArguments := "payment_success" }).effects =
        [Effect.send (NewMessage 70
           "Спасибо за оплату! Ваш персонализированный план питания будет готов в ближайшее время."),
         Effect.goHandlePaymentSuccess 7 "cs_test_1"] :=
  (deep_link_starts_completion_iff_session pendingBot
    { startCommand 70 7 "ann" with CommandArguments := "payment_success" }
    (by decide) (by decide)).2.1 ⟨7, StatePayment, sampleScratch, "cs_test_1"⟩
    (by decide) (by decide)

/-! ## Plans and payments -/

/-- A row found under the reference right after the status update is a row of the
updated table and carries the new status. -/
theorem updated_payment_found (payments : List Payment) (ref status : String)
    (payment : Payment)
    (h : (payments.map (fun r =>
        if r.StripePaymentID = ref then { r with Status := status } else r)).find?
        (fun r => decide (r.StripePaymentID = ref)) = some payment) :
    payment ∈ payments.map (fun r =>
        if r.StripePaymentID = ref then { r with Status := status } else r) ∧
      payment.StripePaymentID = ref ∧ payment.Status = status := by
  have hmem := List.mem_of_find?_eq_some h
  have hq := List.find?_some h
  have href : payment.StripePaymentID = ref := by simpa using hq
  refine ⟨hmem, href, ?_⟩
  obtain ⟨r, -, hr⟩ := List.mem_map.1 hmem
  by_cases hrr : r.StripePaymentID = ref
  · simp only [hrr, if_true] at hr
    rw [← hr]
  · simp only [hrr, if_false] at hr
    rw [hr] at hrr
    exact absurd href hrr

/-- With no row under the reference, the fetch after the status update finds
nothing. -/
theorem updated_payment_absent (payments : List Payment) (ref status : String)
    (h : ∀ r ∈ payments, r.StripePaymentID ≠ ref) :
    (payments.map (fun r =>
        if r.StripePaymentID = ref then { r with Status := status } else r)).find?
        (fun r => decide (r.StripePaymentID = ref)) = none := by
  rw [List.find?_eq_none]
  intro x hx
  obtain ⟨r, hr, hrx⟩ := List.mem_map.1 hx
  have hne := h r hr
  simp only [hne, if_false] at hrx
  rw [← hrx]
  simpa using hne

/-- Claim C15. A run of `handlePaymentSuccess` either leaves the plan table as it
was, or appends one row to it; in that case the payment row fetched under the
reference is in the store at that moment, has status "completed", and is the one the
new row links to. When the store holds no payment row under the reference, the run
calls neither `GenerateDietPlan` nor `SaveDietPlan` and leaves the plan table as it
was. -/
theorem plan_only_for_completed_payment (env : Env) (t : TelegramBot) (userID : Int)
    (ref : String) :
    ((handlePaymentSuccess env t userID ref).bot.db.dietPlans = t.db.dietPlans ∨
      ∃ payment row,
        (handlePaymentSuccess env t userID ref).bot.db.dietPlans = t.db.dietPlans ++ [row] ∧
        row.PaymentID = payment.ID ∧
        payment ∈ (handlePaymentSuccess env t userID ref).bot.db.payments ∧
        payment.StripePaymentID = ref ∧
        payment.Status = "completed") ∧
    ((∀ r ∈ t.db.payments, r.StripePaymentID ≠ ref) →
      (handlePaymentSuccess env t userID ref).bot.db.dietPlans = t.db.dietPlans ∧
      (handlePaymentSuccess env t userID ref).effects.filter Effect.isGenerateDietPlan = [] ∧
      (handlePaymentSuccess env t userID ref).effects.filter Effect.isSaveDietPlan = []) := by
  unfold handlePaymentSuccess
  cases hu : t.db.GetUser env.getUserFault userID with
  | none => simp [Effect.isGenerateDietPlan, Effect.isSaveDietPlan]
  | some user =>
    cases hf : env.updatePaymentStatusFault with
    | true => simp [DB.UpdatePaymentStatus, hf, Effect.isGenerateDietPlan, Effect.isSaveDietPlan]
    | false =>
      simp only [DB.UpdatePaymentStatus, Bool.false_eq_true, if_false]
      cases hp : DB.GetPaymentByStripeID
          { t.db with payments := t.db.payments.map (fun r =>
              if r.StripePaymentID = ref then { r with Status := "completed" } else r) }
          env.getPaymentFault ref with
      | none => simp [Effect.isGenerateDietPlan, Effect.isSaveDietPlan]
      | some payment =>
        have hfound : (t.db.payments.map (fun r =>
            if r.StripePaymentID = ref then { r with Status := "completed" } else r)).find?
            (fun r => decide (r.StripePaymentID = ref)) = some payment := by
          unfold DB.GetPaymentByStripeID at hp
          split at hp
          · simp at hp
          · exact hp
        obtain ⟨hmem, href, hstatus⟩ := updated_payment_found _ _ _ _ hfound
        constructor
        · cases hplan : env.plan with
          | none => simp
          | some planText =>
            cases hs : env.saveDietPlanFault with
            | true => simp [DB.SaveDietPlan]
            | false =>
              right
              refine ⟨payment, ⟨t.db.nextPlanID, user.ID, payment.ID, planText⟩, ?_, rfl, ?_,
                href, hstatus⟩
              · simp [DB.SaveDietPlan]
              · simpa [DB.SaveDietPlan] using hmem
        · intro habsent
          have hnone := updated_payment_absent t.db.payments ref "completed" habsent
          rw [hnone] at hfound
          cases hfound

/-- Witness for C15: no payment row is stored under "pi_test_1". -/
theorem plan_only_witness :
    (∀ r ∈ pendingBot.db.payments, r.StripePaymentID ≠ "pi_test_1") ∧
      (handlePaymentSuccess sampleEnv pendingBot 7 "pi_test_1").bot.db.dietPlans =
        pendingBot.db.dietPlans :=
  ⟨by decide,
   ((plan_only_for_completed_payment sampleEnv pendingBot 7 "pi_test_1").2 (by decide)).1⟩

/-! ## Lemmas on well-formed scratch data -/

theorem hasGender_mapSet (d : List (String × Value)) (k : String) (v : Value)
    (hk : "gender" ≠ k) (h : HasGender d) : HasGender (mapSet d k v) := by
  obtain ⟨g, hg, hl⟩ := h
  exact ⟨g, by rw [mapGet_mapSet_ne _ _ _ _ hk]; exact hg, hl⟩

theorem hasHeight_mapSet (d : List (String × Value)) (k : String) (v : Value)
    (hk : "height" ≠ k) (h : HasHeight d) : HasHeight (mapSet d k v) := by
  obtain ⟨n, hn, hl⟩ := h
  exact ⟨n, by rw [mapGet_mapSet_ne _ _ _ _ hk]; exact hn, hl⟩

theorem hasWeight_mapSet (d : List (String × Value)) (k : String) (v : Value)
    (hk : "weight" ≠ k) (h : HasWeight d) : HasWeight (mapSet d k v) := by
  obtain ⟨n, hn, hl⟩ := h
  exact ⟨n, by rw [mapGet_mapSet_ne _ _ _ _ hk]; exact hn, hl⟩

/-- A state in a stage that asks nothing of the scratch is well formed. -/
theorem wellFormed_of_other_stage (s : UserState)
    (h1 : s.CurrentState ≠ StateHeight) (h2 : s.CurrentState ≠ StateWeight)
    (h3 : s.CurrentState ≠ StateGoal) (h4 : s.CurrentState ≠ StateConfirm) :
    WellFormed s :=
  ⟨fun h => absurd h h1, fun h => absurd h h2, fun h => absurd h h3, fun h => absurd h h4⟩

theorem wellFormed_of_stage (s : UserState) (c : String) (hs : s.CurrentState = c)
    (h1 : c ≠ StateHeight) (h2 : c ≠ StateWeight) (h3 : c ≠ StateGoal)
    (h4 : c ≠ StateConfirm) : WellFormed s :=
  wellFormed_of_other_stage s (hs ▸ h1) (hs ▸ h2) (hs ▸ h3) (hs ▸ h4)

theorem wellFormed_height (s : UserState) (hs : s.CurrentState = StateHeight)
    (hg : HasGender s.TemporaryData) : WellFormed s := by
  refine ⟨fun _ => hg, fun h => ?_, fun h => ?_, fun h => ?_⟩ <;>
    · rw [hs] at h
      exact absurd h (by decide)

theorem wellFormed_weight (s : UserState) (hs : s.CurrentState = StateWeight)
    (hg : HasGender s.TemporaryData) (hh : HasHeight s.TemporaryData) : WellFormed s := by
  refine ⟨fun h => ?_, fun _ => ⟨hg, hh⟩, fun h => ?_, fun h => ?_⟩ <;>
    · rw [hs] at h
      exact absurd h (by decide)

theorem wellFormed_goal (s : UserState) (hs : s.CurrentState = StateGoal)
    (hg : HasGender s.TemporaryData) (hh : HasHeight s.TemporaryData)
    (hw : HasWeight s.TemporaryData) : WellFormed s := by
  refine ⟨fun h => ?_, fun h => ?_, fun _ => ⟨hg, hh, hw⟩, fun h => ?_⟩ <;>
    · rw [hs] at h
      exact absurd h (by decide)

theorem wellFormed_confirm (s : UserState) (hs : s.CurrentState = StateConfirm)
    (hg : HasGender s.TemporaryData) (hh : HasHeight s.TemporaryData)
    (hw : HasWeight s.TemporaryData) (ho : HasGoal s.TemporaryData) : WellFormed s := by
  refine ⟨fun h => ?_, fun h => ?_, fun h => ?_, fun _ => ⟨hg, hh, hw, ho⟩⟩ <;>
    · rw [hs] at h
      exact absurd h (by decide)

/-- The yes branch either leaves the state store as it was or writes a Payment state
for the sender; on a well-formed Confirm state no type assertion fails. -/
theorem handleConfirmYes_states (env : Env) (t : TelegramBot) (message : Message)
    (state : UserState) :
    ((handleConfirmYes env t message state).bot.userStates = t.userStates ∨
      ∃ s', (handleConfirmYes env t message state).bot.userStates =
          mapSet t.userStates message.FromID s' ∧ s'.CurrentState = StatePayment) ∧
    (WellFormed state → state.CurrentState = StateConfirm →
      (handleConfirmYes env t message state).panicked = false) := by
  constructor
  · unfold handleConfirmYes
    repeat' first
      | split
      | dsimp only
    all_goals first
      | exact Or.inl rfl
      | exact Or.inr ⟨_, rfl, rfl⟩
  · intro hwf hstage
    obtain ⟨⟨g, hg, -⟩, ⟨h, hh, -⟩, ⟨w, hw, -⟩, ⟨o, ho, -⟩⟩ := hwf.2.2.2 hstage
    unfold handleConfirmYes
    simp only [hg, hh, hw, ho, assertString, assertInt]
    repeat' first
      | split
      | dsimp only

/-- One text message either leaves the state store as it was or writes one state for
the sender; when the state of the sender was well formed, so is the new one, and no
type assertion fails. -/
theorem handleMessage_states (env : Env) (t : TelegramBot) (message : Message) :
    ((handleMessage env t message).bot.userStates = t.userStates ∨
      ∃ s', (handleMessage env t message).bot.userStates =
          mapSet t.userStates message.FromID s' ∧
        (ScratchOK t message.FromID → WellFormed s')) ∧
    (ScratchOK t message.FromID → (handleMessage env t message).panicked = false) := by
  have n1 : StateHeight ≠ StateGender := by decide
  have n2 : StateWeight ≠ StateGender := by decide
  have n3 : StateWeight ≠ StateHeight := by decide
  have n4 : StateGoal ≠ StateGender := by decide
  have n5 : StateGoal ≠ StateHeight := by decide
  have n6 : StateGoal ≠ StateWeight := by decide
  have n7 : StateConfirm ≠ StateGender := by decide
  have n8 : StateConfirm ≠ StateHeight := by decide
  have n9 : StateConfirm ≠ StateWeight := by decide
  have n10 : StateConfirm ≠ StateGoal := by decide
  cases hget : mapGet t.userStates message.FromID with
  | none =>
    unfold handleMessage
    simp [hget]
  | some state =>
    by_cases hG : state.CurrentState = StateGender
    · by_cases hl : message.Text = "Мужской" ∨ message.Text = "Женский"
      · rw [handleMessage_gender_accept env t message state hget hG hl]
        exact ⟨Or.inr ⟨_, rfl, fun _ =>
          wellFormed_height _ rfl ⟨_, mapGet_mapSet_self _ _ _, hl⟩⟩, fun _ => rfl⟩
      · have hl2 : message.Text ≠ "Мужской" ∧ message.Text ≠ "Женский" :=
          ⟨fun h => hl (Or.inl h), fun h => hl (Or.inr h)⟩
        unfold handleMessage
        simp [hget, hG, hl2]
    by_cases hH : state.CurrentState = StateHeight
    · cases hA : Atoi message.Text with
      | none =>
        unfold handleMessage
        simp [hget, hH, n1, hA]
      | some h =>
        by_cases hr : h < 50 ∨ h > 250
        · unfold handleMessage
          simp [hget, hH, n1, hA, hr]
        · have hlo : 50 ≤ h := by omega
          have hhi : h ≤ 250 := by omega
          rw [handleMessage_height_accept env t message state h hget hH hA hlo hhi]
          refine ⟨Or.inr ⟨_, rfl, fun hok => ?_⟩, fun _ => rfl⟩
          have hg := (hok state hget).1 hH
          exact wellFormed_weight _ rfl (hasGender_mapSet _ _ _ (by decide) hg)
            ⟨h, mapGet_mapSet_self _ _ _, hlo, hhi⟩
    by_cases hW : state.CurrentState = StateWeight
    · cases hA : Atoi message.Text with
      | none =>
        unfold handleMessage
        simp [hget, hW, n2, n3, hA]
      | some w =>
        by_cases hr : w < 30 ∨ w > 300
        · unfold handleMessage
          simp [hget, hW, n2, n3, hA, hr]
        · have hlo : 30 ≤ w := by omega
          have hhi : w ≤ 300 := by omega
          rw [handleMessage_weight_accept env t message state w hget hW hA hlo hhi]
          refine ⟨Or.inr ⟨_, rfl, fun hok => ?_⟩, fun _ => rfl⟩
          obtain ⟨hg, hh⟩ := (hok state hget).2.1 hW
          exact wellFormed_goal _ rfl (hasGender_mapSet _ _ _ (by decide) hg)
            (hasHeight_mapSet _ _ _ (by decide) hh) ⟨w, mapGet_mapSet_self _ _ _, hlo, hhi⟩
    by_cases hO : state.CurrentState = StateGoal
    · cases hv : validGoals message.Text with
      | false =>
        unfold handleMessage
        simp [hget, hO, n4, n5, n6, hv]
      | true =>
        constructor
        · rw [handleMessage_goal_bot env t message state hget hO hv]
          refine Or.inr ⟨_, rfl, fun hok => ?_⟩
          obtain ⟨hg, hh, hw⟩ := (hok state hget).2.2.1 hO
          exact wellFormed_confirm _ rfl (hasGender_mapSet _ _ _ (by decide) hg)
            (hasHeight_mapSet _ _ _ (by decide) hh) (hasWeight_mapSet _ _ _ (by decide) hw)
            ⟨_, mapGet_mapSet_self _ _ _, (validGoals_iff _).1 hv⟩
        · intro hok
          obtain ⟨⟨g, hg, -⟩, ⟨h, hh, -⟩, ⟨w, hw, -⟩⟩ := (hok state hget).2.2.1 hO
          rw [handleMessage_goal_accept env t message state g h w hget hO hv hg hh hw]
    by_cases hC : state.CurrentState = StateConfirm
    · by_cases hno : message.Text = "Нет, изменить"
      · unfold handleMessage
        simp only [hget, hC, n7, n8, n9, n10, hno, if_true, if_false]
        exact ⟨Or.inr ⟨_, rfl, fun _ =>
          wellFormed_of_stage _ StateGender rfl (by decide) (by decide) (by decide)
            (by decide)⟩,
          fun _ => trivial⟩
      · by_cases hyes : message.Text = "Да, всё верно"
        · rw [handleMessage_confirm_yes env t message state hget hC hyes]
          obtain ⟨hst, hpanic⟩ := handleConfirmYes_states env t message state
          refine ⟨?_, fun hok => hpanic (hok state hget) hC⟩
          rcases hst with h | ⟨s', hs', hp⟩
          · exact Or.inl h
          · refine Or.inr ⟨s', hs', fun _ => ?_⟩
            apply wellFormed_of_other_stage <;>
              · rw [hp]
                decide
        · unfold handleMessage
          simp [hget, hC, n7, n8, n9, n10, hno, hyes]
    · unfold handleMessage
      simp only [hget, hG, hH, hW, hO, hC, if_false]
      exact ⟨Or.inr ⟨_, rfl, fun _ =>
        wellFormed_of_stage _ StateStart rfl (by decide) (by decide) (by decide)
          (by decide)⟩,
        fun _ => trivial⟩

/-- A command either leaves the state store as it was or writes a fresh state for the
sender. -/
theorem handleCommand_states (t : TelegramBot) (message : Message) :
    (handleCommand t message).bot.userStates = t.userStates ∨
      ∃ s', (handleCommand t message).bot.userStates =
          mapSet t.userStates message.FromID s' ∧ WellFormed s' := by
  have hfresh : ∀ c, c ≠ StateHeight → c ≠ StateWeight → c ≠ StateGoal → c ≠ StateConfirm →
      WellFormed (freshState message.FromID c) :=
    fun c h1 h2 h3 h4 => wellFormed_of_stage _ c rfl h1 h2 h3 h4
  have hinit : ∃ s', (handleCommandInit t message).bot.userStates =
      mapSet t.userStates message.FromID s' ∧ WellFormed s' :=
    ⟨_, rfl, hfresh StateGender (by decide) (by decide) (by decide) (by decide)⟩
  unfold handleCommand
  repeat' first
    | split
    | dsimp only
  all_goals first
    | exact Or.inl rfl
    | exact Or.inr hinit
    | exact Or.inr
        ⟨_, rfl, hfresh StateStart (by decide) (by decide) (by decide) (by decide)⟩

/-- The completion handler either leaves the state store as it was or sets the stage
of the user to Complete. -/
theorem handlePaymentSuccess_states (env : Env) (t : TelegramBot) (userID : Int)
    (ref : String) :
    (handlePaymentSuccess env t userID ref).bot.userStates = t.userStates ∨
      ∃ s', (handlePaymentSuccess env t userID ref).bot.userStates =
          mapSet t.userStates userID s' ∧ WellFormed s' := by
  unfold handlePaymentSuccess
  repeat' first
    | split
    | dsimp only
  all_goals first
    | exact Or.inl rfl
    | exact Or.inr
        ⟨_, rfl, wellFormed_of_stage _ StateComplete rfl (by decide) (by decide) (by decide)
          (by decide)⟩

/-- Writing a well-formed state for some user keeps the state of `u` well formed. -/
theorem scratchOK_mapSet (t : TelegramBot) (states : List (Int × UserState)) (u v : Int)
    (s' : UserState) (h : ScratchOK t u) (hs : states = mapSet t.userStates v s')
    (hwf : v = u → WellFormed s') :
    ∀ s, mapGet states u = some s → WellFormed s := by
  intro s hget
  rw [hs] at hget
  by_cases hvu : v = u
  · subst hvu
    rw [mapGet_mapSet_self] at hget
    cases hget
    exact hwf rfl
  · rw [mapGet_mapSet_ne _ _ _ _ (fun e => hvu e.symm)] at hget
    exact h s hget

/-- Every delivery keeps the state of every user well formed. -/
theorem step_scratchOK (env : Env) (t : TelegramBot) (update : Update) (u : Int)
    (h : ScratchOK t u) : ScratchOK (step env t update).bot u := by
  cases update with
  | command message =>
    rcases handleCommand_states t message with hst | ⟨s', hs', hwf⟩
    · intro s hget
      exact h s (by rw [← hst]; exact hget)
    · exact scratchOK_mapSet t _ u message.FromID s' h hs' (fun _ => hwf)
  | text message =>
    rcases (handleMessage_states env t message).1 with hst | ⟨s', hs', hwf⟩
    · intro s hget
      exact h s (by rw [← hst]; exact hget)
    · exact scratchOK_mapSet t _ u message.FromID s' h hs' (fun e => hwf (e ▸ h))
  | paymentSuccess userID ref =>
    rcases handlePaymentSuccess_states env t userID ref with hst | ⟨s', hs', hwf⟩
    · intro s hget
      exact h s (by rw [← hst]; exact hget)
    · exact scratchOK_mapSet t _ u userID s' h hs' (fun _ => hwf)

/-- A sequential run keeps the state of every user well formed. -/
theorem run_scratchOK (updates : List (Env × Update)) (t : TelegramBot) (u : Int)
    (h : ScratchOK t u) : ScratchOK (run t updates).1 u := by
  induction updates generalizing t with
  | nil => exact h
  | cons p rest ih =>
    obtain ⟨env, update⟩ := p
    exact ih _ (step_scratchOK env t update u h)

/-! ## The scratch invariant -/

/-- Claim C19. After a `/start` that resets the sender, and then any sequence of
commands, texts and completion runs of any users, processed one after the other, the
conversation state of that sender is well formed: in stage Height the scratch holds a
gender label; in stage Weight also a height of `[50, 250]`; in stage Goal also a weight
of `[30, 300]`; in stage Confirm also a goal label. Hence no text of that sender makes
a type assertion of `handleMessage` fail. -/
theorem scratch_well_formed_after_start (t : TelegramBot) (start : Message)
    (hcmd : start.Command = "start")
    (hsuccess : start.CommandArguments ≠ "payment_success")
    (hcancel : start.CommandArguments ≠ "payment_cancel")
    (updates : List (Env × Update)) :
    (∀ s, mapGet (run (handleCommand t start).bot updates).1.userStates start.FromID = some s →
      WellFormed s) ∧
    (∀ env message, message.FromID = start.FromID →
      (handleMessage env (run (handleCommand t start).bot updates).1 message).panicked =
        false) := by
  have h0 : ScratchOK (handleCommand t start).bot start.FromID := by
    intro s hget
    unfold handleCommand at hget
    simp only [hcmd, hsuccess, hcancel, if_true, if_false, handleCommandInit] at hget
    rw [mapGet_mapSet_self] at hget
    cases hget
    exact wellFormed_of_stage _ StateGender rfl (by decide) (by decide) (by decide) (by decide)
  have hrun := run_scratchOK updates _ start.FromID h0
  refine ⟨hrun, fun env message hfrom => ?_⟩
  exact (handleMessage_states env _ message).2 (hfrom ▸ hrun)

/-- Witness for C19: user 7 answers the four questions after `/start`; the Confirm
state reached holds the four answers. -/
theorem scratch_well_formed_witness :
    mapGet (run (handleCommand emptyBot (startCommand 70 7 "ann")).bot
        [(sampleEnv, Update.text (textMessage 70 7 "ann" "Женский")),
         (sampleEnv, Update.text (textMessage 70 7 "ann" "175")),
         (sampleEnv, Update.text (textMessage 70 7 "ann" "70")),
         (sampleEnv, Update.text (textMessage 70 7 "ann" "Снизить вес"))]).1.userStates 7 =
        some ⟨7, StateConfirm, sampleScratch, ""⟩ ∧
      WellFormed ⟨7, StateConfirm, sampleScratch, ""⟩ :=
  ⟨by decide,
   (scratch_well_formed_after_start emptyBot (startCommand 70 7 "ann") (by decide) (by decide)
      (by decide)
      [(sampleEnv, Update.text (textMessage 70 7 "ann" "Женский")),
       (sampleEnv, Update.text (textMessage 70 7 "ann" "175")),
       (sampleEnv, Update.text (textMessage 70 7 "ann" "70")),
       (sampleEnv, Update.text (textMessage 70 7 "ann" "Снизить вес"))]).1
      ⟨7, StateConfirm, sampleScratch, ""⟩ (by decide)⟩

/-! ## The Goal stage on reachable states -/

end DietBot
